import Mathlib

/-
  Verification development for the Backtesting_Engine repository.

  Shallow embedding of:
  - the frontend parameter helpers getNum / getStr and the strategy
    code generators (src/unnamed/part_001, strategyCodeGenerator.ts),
  - the frontend backtest request builder handleRunBacktest and the
    strategies-list delete handler (src/unnamed/part_003),
  - the serialized record shapes (src/frontend/lib/types.ts),
  - the backtest engine (runner / order simulator), which is not part of
    the available sources (only its README, callers and generated
    strategies are); those parts are modelled from the spec and are
    marked as such in their doc comments.

  JavaScript numbers are modelled as rationals; dictionary keys that may
  be absent are modelled as Option fields.
-/

namespace BT

/-- Model of a JavaScript value as stored in a params record
(Record of String to unknown) in strategyCodeGenerator.ts. -/
inductive JSValue where
  | num (q : ℚ)
  | str (s : String)
  | boolV (b : Bool)
  | nullV
  | undefV
deriving DecidableEq

/-- Digit list to natural number, most significant first. -/
def digitsToNat (ds : List Char) : ℕ :=
  ds.foldl (fun acc c => acc * 10 + (c.toNat - 48)) 0

/-- Splitting stage of the parseFloat model: sign flag, integer digits and
fractional digits of the longest decimal prefix of the string. -/
def pfSplit (s : String) : Bool × List Char × List Char :=
  let cs := s.toList.dropWhile (fun c => c = ' ')
  let signed : Bool × List Char :=
    match cs with
    | '-' :: rest => (true, rest)
    | '+' :: rest => (false, rest)
    | _ => (false, cs)
  let ds := signed.2.takeWhile Char.isDigit
  let afterInt := signed.2.dropWhile Char.isDigit
  let fs :=
    match afterInt with
    | '.' :: rest => rest.takeWhile Char.isDigit
    | _ => []
  (signed.1, ds, fs)

/-- Model of the JavaScript parseFloat builtin on plain decimal literals:
optional sign, integer digits, optional fractional digits; a longer tail
is ignored (parseFloat parses the longest numeric prefix).  Returns none
where parseFloat returns NaN. -/
def parseFloatM (s : String) : Option ℚ :=
  let t := pfSplit s
  if t.2.1.isEmpty && t.2.2.isEmpty then none
  else
    let v : ℚ := (digitsToNat t.2.1 : ℚ) + (digitsToNat t.2.2 : ℚ) / ((10 : ℚ) ^ t.2.2.length)
    some (if t.1 then -v else v)

/-- Embedding of getNum from strategyCodeGenerator.ts, parametrized by the
parseFloat implementation pf (a JavaScript builtin, not repository code):
  const v = params[key];
  if (typeof v === "number") return v;
  if (typeof v === "string") return parseFloat(v) || def;
  return def;
The JavaScript expression parseFloat(v) || def yields def exactly when the
parse result is falsy, that is NaN (modelled none) or 0. -/
def getNum (pf : String → Option ℚ) (params : String → JSValue) (key : String) (d : ℚ) : ℚ :=
  match params key with
  | JSValue.num q => q
  | JSValue.str s =>
      match pf s with
      | some x => if x = 0 then d else x
      | none => d
  | _ => d

/-- The behavior of getNum as the claim describes it: params[key] when it is
a number; parseFloat of the string unless that result is 0 or NaN, in which
case the default; the default for any other value. -/
def getNumClaimed (pf : String → Option ℚ) (params : String → JSValue) (key : String) (d : ℚ) : ℚ :=
  match params key with
  | JSValue.num q => q
  | JSValue.str s =>
      match pf s with
      | none => d
      | some x => if x = 0 then d else x
  | _ => d

/-- Embedding of getStr from strategyCodeGenerator.ts, parametrized by the
JavaScript String() conversion for non-string values:
  const v = params[key];
  return (typeof v === "string" ? v : String(v ?? def)) || def; -/
def getStr (jsString : JSValue → String) (params : String → JSValue) (key : String) (d : String) : String :=
  let v := params key
  let s :=
    match v with
    | JSValue.str s => s
    | JSValue.nullV => jsString (JSValue.str d)
    | JSValue.undefV => jsString (JSValue.str d)
    | other => jsString other
  if s = "" then d else s

/-- Claim C9: getNum returns the stored number, parseFloat of a stored
string unless that parses to 0 or NaN (then the default), and the default
otherwise; in particular the string "0" is silently replaced by the
default rather than yielding 0 (second and third conjuncts, evaluated with
the concrete parseFloat model). -/
theorem c9_getNum_semantics :
    (∀ (pf : String → Option ℚ) (params : String → JSValue) (key : String) (d : ℚ),
       getNum pf params key d = getNumClaimed pf params key d) ∧
    (∀ (key : String) (d : ℚ), getNum parseFloatM (fun _ => JSValue.str "0") key d = d) ∧
    (∀ (key : String) (d : ℚ), getNum parseFloatM (fun _ => JSValue.str "2.5") key d = 5 / 2) := by
  have s0 : pfSplit "0" = (false, ['0'], []) := by decide
  have s25 : pfSplit "2.5" = (false, ['2'], ['5']) := by decide
  have d0 : digitsToNat ['0'] = 0 := by decide
  have dnil : digitsToNat [] = 0 := by decide
  have d2 : digitsToNat ['2'] = 2 := by decide
  have d5 : digitsToNat ['5'] = 5 := by decide
  have h0 : parseFloatM "0" = some 0 := by
    norm_num [parseFloatM, s0, d0, dnil]
  have h25 : parseFloatM "2.5" = some (5 / 2) := by
    norm_num [parseFloatM, s25, d2, d5]
  refine ⟨fun pf params key d => ?_, fun key d => ?_, fun key d => ?_⟩
  · unfold getNum getNumClaimed
    cases params key with
    | num q => rfl
    | str s => cases h : pf s <;> simp [h]
    | boolV b => rfl
    | nullV => rfl
    | undefV => rfl
  · simp [getNum, h0]
  · norm_num [getNum, h25]

/- ----------------------------------------------------------------
   Frontend backtest request builder (handleRunBacktest, part_003)
   ---------------------------------------------------------------- -/

/-- Nested config object of the backtest request body. -/
structure BacktestConfig where
  risk_per_trade : ℚ
  max_positions : ℚ
  initial_capital : ℚ
deriving DecidableEq

/-- The backtest request body built by handleRunBacktest.  Fields that the
code can set to null are Options; limit is an Option so the claim about a
non-null limit can be stated, the builder always fills it with some. -/
structure BacktestRequest where
  strategy_id : ℤ
  broker : String
  symbol : String
  interval : String
  initial_capital : ℚ
  start_time : Option ℤ
  end_time : Option ℤ
  limit : Option ℚ
  config : BacktestConfig
deriving DecidableEq

/-- Component state of the strategy detail page that feeds
handleRunBacktest: the date inputs are strings (empty when unset), limit
and the other numeric inputs are plain numbers. -/
structure BacktestPageState where
  startTime : String
  endTime : String
  broker : String
  symbol : String
  interval : String
  initialCapital : ℚ
  riskPerTrade : ℚ
  maxPositions : ℚ
  limit : ℚ
deriving DecidableEq

/-- Embedding of the body construction in handleRunBacktest (part_003):
  let startTs = null; let endTs = null;
  if (startTime) startTs = new Date(startTime).getTime();
  if (endTime) endTs = new Date(endTime).getTime();
  const backtestData = { strategy_id, broker, symbol, interval,
    initial_capital, start_time: startTs, end_time: endTs, limit,
    config: { risk_per_trade: riskPerTrade / 100, max_positions, initial_capital } };
dateToMs models new Date(x).getTime().  A JavaScript string is truthy
exactly when non-empty.  The limit field is always included as a plain
number, never null. -/
def backtestData (dateToMs : String → ℤ) (sid : ℤ) (st : BacktestPageState) : BacktestRequest :=
  let startTs : Option ℤ := if st.startTime = "" then none else some (dateToMs st.startTime)
  let endTs : Option ℤ := if st.endTime = "" then none else some (dateToMs st.endTime)
  { strategy_id := sid
    broker := st.broker
    symbol := st.symbol
    interval := st.interval
    initial_capital := st.initialCapital
    start_time := startTs
    end_time := endTs
    limit := some st.limit
    config :=
      { risk_per_trade := st.riskPerTrade / 100
        max_positions := st.maxPositions
        initial_capital := st.initialCapital } }

/-- The mutual-exclusion property the claim asserts of every request body:
not both a non-null limit and a non-null start_time or end_time. -/
def atMostOneBound (r : BacktestRequest) : Bool :=
  !(r.limit.isSome && (r.start_time.isSome || r.end_time.isSome))

/-- A concrete page state with a start and end date filled in (and the
default candle limit still present), as a user who picks a time range
produces. -/
def pageStateWithRange : BacktestPageState :=
  { startTime := "2024-01-01T00:00"
    endTime := "2024-01-02T00:00"
    broker := "binance"
    symbol := "BTCUSDT"
    interval := "1h"
    initialCapital := 10000
    riskPerTrade := 1
    maxPositions := 1
    limit := 1000 }

/-- Claim C3 fails on the code: handleRunBacktest always includes limit as
a plain number, so when the user supplies a time range the request body
carries both a non-null limit and non-null start_time and end_time.  The
repository README for the same endpoint says to use limit OR a time range,
not both. -/
theorem c3_both_bounds_sent :
    (backtestData (fun _ => 1704067200000) 1 pageStateWithRange).limit.isSome = true ∧
    (backtestData (fun _ => 1704067200000) 1 pageStateWithRange).start_time.isSome = true ∧
    (backtestData (fun _ => 1704067200000) 1 pageStateWithRange).end_time.isSome = true ∧
    atMostOneBound (backtestData (fun _ => 1704067200000) 1 pageStateWithRange) = false := by
  refine ⟨rfl, ?_, ?_, ?_⟩ <;> decide

/- ----------------------------------------------------------------
   Strategies list delete handler (part_003, StrategiesPage)
   ---------------------------------------------------------------- -/

/-- The Strategy record from src/frontend/lib/types.ts. -/
structure Strategy where
  id : ℤ
  name : String
  description : Option String
  class_name : String
  is_active : Bool
  user_id : ℤ
  created_at : String
  updated_at : String
  code : String
deriving DecidableEq

/-- Embedding of the successful-delete state update in handleDelete
(part_003): setStrategies(strategies.filter(s => s.id !== id)). -/
def handleDelete (strategies : List Strategy) (id : ℤ) : List Strategy :=
  strategies.filter (fun s => s.id ≠ id)

/-- Claim C10: handleDelete removes exactly the entries whose id equals the
given id; every other strategy is retained, unmodified and in its original
relative order (the result is a sublist of the input). -/
theorem c10_delete_filters_exactly (l : List Strategy) (id : ℤ) :
    (handleDelete l id).Sublist l ∧
    (∀ s, s ∈ handleDelete l id → s.id ≠ id) ∧
    (∀ s, s ∈ l → s.id ≠ id → s ∈ handleDelete l id) := by
  refine ⟨List.filter_sublist l, ?_, ?_⟩
  · intro s hs
    have := List.of_mem_filter hs
    simpa using this
  · intro s hs hid
    refine List.mem_filter.mpr ⟨hs, ?_⟩
    simpa using hid

/-- Sample strategies for the witness. -/
def strategyA : Strategy :=
  { id := 1, name := "MA Crossover", description := none, class_name := "MACrossoverStrategy"
    is_active := true, user_id := 1, created_at := "2026-01-27", updated_at := "2026-01-27"
    code := "pass" }

/-- Second sample strategy with a different id. -/
def strategyB : Strategy :=
  { id := 2, name := "RSI", description := some "mean reversion", class_name := "RSIMeanReversionStrategy"
    is_active := true, user_id := 1, created_at := "2026-01-27", updated_at := "2026-01-27"
    code := "pass" }

/-- Witness for claim C10 at a concrete list: deleting id 1 from
[strategyA, strategyB, strategyA] keeps strategyB. -/
theorem c10_delete_filters_exactly_witness :
    strategyB ∈ [strategyA, strategyB, strategyA] ∧
    strategyB.id ≠ (1 : ℤ) ∧
    strategyB ∈ handleDelete [strategyA, strategyB, strategyA] 1 ∧
    (∀ s, s ∈ handleDelete [strategyA, strategyB, strategyA] 1 → s.id ≠ 1) := by
  refine ⟨by decide, by decide, ?_, (c10_delete_filters_exactly [strategyA, strategyB, strategyA] 1).2.1⟩
  exact (c10_delete_filters_exactly [strategyA, strategyB, strategyA] 1).2.2 strategyB (by decide) (by decide)

/- ----------------------------------------------------------------
   Serialized record shapes (src/frontend/lib/types.ts)
   ---------------------------------------------------------------- -/

/-- Field names of the Trade interface in src/frontend/lib/types.ts, in
declaration order. -/
def tradeFields : List String :=
  ["entry_time", "exit_time", "side", "entry_price", "exit_price",
   "quantity", "pnl", "return_pct", "exit_reason", "candles_held"]

/-- Field names of the BacktestMetrics interface in types.ts. -/
def backtestMetricsFields : List String :=
  ["total_return", "sharpe_ratio", "max_drawdown", "win_rate",
   "avg_win", "avg_loss", "profit_factor"]

/-- Field names of the BacktestDetail interface in types.ts. -/
def backtestDetailFields : List String :=
  ["backtest_id", "strategy_name", "symbol", "interval", "initial_capital",
   "final_capital", "metrics", "total_trades", "winning_trades",
   "losing_trades", "trades", "equity_curve", "created_at"]

/-- The Trade field list exactly as the claim states it, with bars_held. -/
def claimedTradeFields : List String :=
  ["entry_time", "exit_time", "side", "entry_price", "exit_price",
   "quantity", "pnl", "return_pct", "exit_reason", "bars_held"]

/-- The BacktestResult field list exactly as the claim states it. -/
def claimedResultFields : List String :=
  ["backtest_id", "strategy_name", "symbol", "interval", "initial_capital",
   "final_capital", "metrics", "total_trades", "winning_trades",
   "losing_trades", "trades", "equity_curve", "created_at"]

/-- The metrics field list exactly as the claim states it. -/
def claimedMetricsFields : List String :=
  ["total_return", "sharpe_ratio", "max_drawdown", "win_rate",
   "avg_win", "avg_loss", "profit_factor"]

/-- Claim C4 fails as stated: the closed-trade record has no field named
bars_held; the bar-count field is serialized as candles_held (types.ts and
the README sample response both show candles_held). -/
theorem c4_no_bars_held_field :
    tradeFields ≠ claimedTradeFields ∧
    ("bars_held" ∈ tradeFields) = False ∧
    "candles_held" ∈ tradeFields := by
  refine ⟨by decide, by simp [tradeFields], by decide⟩

/-- Claim C5: the BacktestResult is serialized with exactly the claimed
fields, and its metrics object with exactly the claimed metric fields. -/
theorem c5_result_fields :
    backtestDetailFields = claimedResultFields ∧
    backtestMetricsFields = claimedMetricsFields := by
  exact ⟨rfl, rfl⟩

/- ----------------------------------------------------------------
   Core data model shared by the engine and the strategies
   ---------------------------------------------------------------- -/

/-- One OHLCV bar (core.candle.Candle in the backend, Bar in the spec). -/
structure Candle where
  timestamp : ℤ
  o : ℚ
  high : ℚ
  low : ℚ
  close : ℚ
  volume : ℚ
deriving DecidableEq

/-- Position side. -/
inductive Side where
  | LONG
  | SHORT
deriving DecidableEq

/-- Intent action strings used by the strategies and the engine. -/
inductive Action where
  | BUY
  | SELL
  | CLOSE
  | CLOSE_ALL
deriving DecidableEq

/-- An order-intent mapping as returned by a strategy on_candle call.
Option fields model dictionary keys that may be absent (or set to None). -/
structure OrderIntent where
  action : Action
  quantity : Option ℚ := none
  price : Option ℚ := none
  order_type : Option String := none
  position_side : Option Side := none
  stop_loss_pct : Option ℚ := none
  stop_loss_price : Option ℚ := none
  take_profit_pct : Option ℚ := none
  take_profit_price : Option ℚ := none
  trailing_stop : Option ℚ := none
  exit_reason : Option String := none
deriving DecidableEq

/-- Modelled from the spec: the Position record of section 3 (the engine
package holding it is not under src/).  entry_index records the bar index
at entry so the bar count of the closed trade can be derived. -/
structure Position where
  side : Side
  entry_price : ℚ
  quantity : ℚ
  entry_time : ℤ
  stop_loss_price : Option ℚ
  take_profit_price : Option ℚ
  trailing_stop_pct : Option ℚ
  favorable_extreme : ℚ
  entry_index : ℕ
deriving DecidableEq

/-- The closed-trade record serialized to the caller, with the field names
of the Trade interface in src/frontend/lib/types.ts. -/
structure Trade where
  entry_time : ℤ
  exit_time : ℤ
  side : String
  entry_price : ℚ
  exit_price : ℚ
  quantity : ℚ
  pnl : ℚ
  return_pct : ℚ
  exit_reason : String
  candles_held : ℤ
deriving DecidableEq

/- ----------------------------------------------------------------
   Order simulator and runner.  The engine package is not under src/;
   everything below is modelled from the spec (sections 4.1, 4.2, 7)
   and from its README usage examples.
   ---------------------------------------------------------------- -/

/-- Modelled from the spec: unrealized profit of an open position marked
at the given price. -/
def unrealized (p : Position) (price : ℚ) : ℚ :=
  match p.side with
  | Side.LONG => (price - p.entry_price) * p.quantity
  | Side.SHORT => (p.entry_price - price) * p.quantity

/-- Modelled from the spec: conversion of a closed position into a Trade
record (return_pct as a percentage of the entered notional, bar count from
the recorded entry index). -/
def closeTrade (p : Position) (exitPrice : ℚ) (reason : String) (exitTime : ℤ) (barIndex : ℕ) : Trade :=
  { entry_time := p.entry_time
    exit_time := exitTime
    side := match p.side with | Side.LONG => "LONG" | Side.SHORT => "SHORT"
    entry_price := p.entry_price
    exit_price := exitPrice
    quantity := p.quantity
    pnl := unrealized p exitPrice
    return_pct := if p.entry_price * p.quantity = 0 then 0
                  else unrealized p exitPrice / (p.entry_price * p.quantity) * 100
    exit_reason := reason
    candles_held := (barIndex : ℤ) - (p.entry_index : ℤ) }

/-- Modelled from the spec: trailing-stop leg of the intrabar exit check
for a LONG position, from the best extreme seen before this bar. -/
def checkTrailLong (p : Position) (c : Candle) : Option (ℚ × String) :=
  match p.trailing_stop_pct with
  | some tr =>
      let lvl := p.favorable_extreme * (1 - tr)
      if c.low ≤ lvl then some (lvl, "TRAILING_STOP") else none
  | none => none

/-- Modelled from the spec: take-profit leg of the intrabar exit check for
a LONG position; the trailing stop is checked after it. -/
def checkTpLong (p : Position) (c : Candle) : Option (ℚ × String) :=
  match p.take_profit_price with
  | some tp => if c.high ≥ tp then some (tp, "TAKE_PROFIT") else checkTrailLong p c
  | none => checkTrailLong p c

/-- Modelled from the spec: trailing-stop leg for a SHORT position. -/
def checkTrailShort (p : Position) (c : Candle) : Option (ℚ × String) :=
  match p.trailing_stop_pct with
  | some tr =>
      let lvl := p.favorable_extreme * (1 + tr)
      if c.high ≥ lvl then some (lvl, "TRAILING_STOP") else none
  | none => none

/-- Modelled from the spec: take-profit leg for a SHORT position. -/
def checkTpShort (p : Position) (c : Candle) : Option (ℚ × String) :=
  match p.take_profit_price with
  | some tp => if c.low ≤ tp then some (tp, "TAKE_PROFIT") else checkTrailShort p c
  | none => checkTrailShort p c

/-- Modelled from the spec, section 4.2: intrabar exit check.  For a LONG
position the stop triggers on bar.low ≤ stop_loss_price and the target on
bar.high ≥ take_profit_price; for SHORT the inequalities mirror.  The
stop is checked first: when both stop and target are breached within the
same bar the stop is honored (pessimistic tie-break). -/
def checkExit (p : Position) (c : Candle) : Option (ℚ × String) :=
  match p.side with
  | Side.LONG =>
      match p.stop_loss_price with
      | some sl => if c.low ≤ sl then some (sl, "STOP_LOSS") else checkTpLong p c
      | none => checkTpLong p c
  | Side.SHORT =>
      match p.stop_loss_price with
      | some sl => if c.high ≥ sl then some (sl, "STOP_LOSS") else checkTpShort p c
      | none => checkTpShort p c

/-- Modelled from the spec: after the exit check, the favorable extreme of
a surviving position is updated with the current bar. -/
def updateExtreme (p : Position) (c : Candle) : Position :=
  match p.side with
  | Side.LONG => { p with favorable_extreme := max p.favorable_extreme c.high }
  | Side.SHORT => { p with favorable_extreme := min p.favorable_extreme c.low }

/-- Modelled from the spec: ledger state owned by the runner. -/
structure LedgerState where
  cash : ℚ
  position : Option Position
  trades : List Trade
  equity_curve : List ℚ
deriving DecidableEq

/-- Modelled from the spec (design note of section 9): an absolute stop
price for a fill, an explicit stop_loss_price taking precedence and a
stop_loss_pct converted once at fill time and frozen. -/
def resolveStop (side : Side) (fill : ℚ) (i : OrderIntent) : Option ℚ :=
  match i.stop_loss_price with
  | some x => some x
  | none =>
      i.stop_loss_pct.map (fun pct =>
        match side with
        | Side.LONG => fill * (1 - pct)
        | Side.SHORT => fill * (1 + pct))

/-- Modelled from the spec: absolute take-profit price for a fill. -/
def resolveTarget (side : Side) (fill : ℚ) (i : OrderIntent) : Option ℚ :=
  match i.take_profit_price with
  | some x => some x
  | none =>
      i.take_profit_pct.map (fun pct =>
        match side with
        | Side.LONG => fill * (1 + pct)
        | Side.SHORT => fill * (1 - pct))

/-- Modelled from the spec, section 4.2: fill price of an intent on the
current bar — market orders fill at bar.close; a limit order fills at its
price only if the bar range crosses it, otherwise the intent is dropped. -/
def fillPrice (i : OrderIntent) (c : Candle) : Option ℚ :=
  match i.order_type, i.price with
  | some "LIMIT", some px => if c.low ≤ px ∧ px ≤ c.high then some px else none
  | _, _ => some c.close

/-- Modelled from the spec: a freshly opened position from a fill. -/
def openPosition (side : Side) (fill q : ℚ) (i : OrderIntent) (c : Candle) (barIndex : ℕ) : Position :=
  { side := side
    entry_price := fill
    quantity := q
    entry_time := c.timestamp
    stop_loss_price := resolveStop side fill i
    take_profit_price := resolveTarget side fill i
    trailing_stop_pct := i.trailing_stop
    favorable_extreme := fill
    entry_index := barIndex }

/-- Modelled from the spec, sections 4.1 (step 3), 4.2 and 7: apply a
validated intent.  Opening while a position is open, or with a
non-positive or missing quantity, is recovered locally by discarding the
intent.  BUY opens LONG; SELL with an open position closes it in full at
bar.close (as the README example strategies use SELL), SELL while flat
opens SHORT only when position_side is SHORT.  CLOSE and CLOSE_ALL close
the full open position at bar.close regardless of size fields. -/
def applyIntent (led : LedgerState) (i : OrderIntent) (c : Candle) (barIndex : ℕ) : LedgerState :=
  match i.action with
  | Action.BUY =>
      match led.position with
      | some _ => led
      | none =>
          match i.quantity with
          | some q =>
              if q ≤ 0 then led
              else
                match fillPrice i c with
                | some fill => { led with position := some (openPosition Side.LONG fill q i c barIndex) }
                | none => led
          | none => led
  | Action.SELL =>
      match led.position with
      | some p =>
          { led with
              cash := led.cash + unrealized p c.close
              position := none
              trades := led.trades ++ [closeTrade p c.close (i.exit_reason.getD "SELL") c.timestamp barIndex] }
      | none =>
          if i.position_side = some Side.SHORT then
            match i.quantity with
            | some q =>
                if q ≤ 0 then led
                else
                  match fillPrice i c with
                  | some fill => { led with position := some (openPosition Side.SHORT fill q i c barIndex) }
                  | none => led
            | none => led
          else led
  | Action.CLOSE =>
      match led.position with
      | some p =>
          { led with
              cash := led.cash + unrealized p c.close
              position := none
              trades := led.trades ++ [closeTrade p c.close (i.exit_reason.getD "CLOSE") c.timestamp barIndex] }
      | none => led
  | Action.CLOSE_ALL =>
      match led.position with
      | some p =>
          { led with
              cash := led.cash + unrealized p c.close
              position := none
              trades := led.trades ++ [closeTrade p c.close (i.exit_reason.getD "CLOSE_ALL") c.timestamp barIndex] }
      | none => led

/-- Modelled from the spec, section 4.1 step 1: exit check on the open
position before the strategy is invoked; a triggered position is closed at
the triggered price, a surviving one has its favorable extreme updated. -/
def exitStep (led : LedgerState) (c : Candle) (barIndex : ℕ) : LedgerState :=
  match led.position with
  | some p =>
      match checkExit p c with
      | some pr =>
          { led with
              cash := led.cash + unrealized p pr.1
              position := none
              trades := led.trades ++ [closeTrade p pr.1 pr.2 c.timestamp barIndex] }
      | none => { led with position := some (updateExtreme p c) }
  | none => led

/-- Modelled from the spec, section 4.1: one iteration of the per-bar
loop — exit check, strategy invocation, intent application, then the
mark-to-market equity append. -/
def stepBar {σ : Type} (strat : σ → Candle → σ × Option OrderIntent)
    (barIndex : ℕ) (st : LedgerState × σ) (c : Candle) : LedgerState × σ :=
  let led1 := exitStep st.1 c barIndex
  let out := strat st.2 c
  let led2 :=
    match out.2 with
    | none => led1
    | some i => applyIntent led1 i c barIndex
  let equity := led2.cash + (match led2.position with
    | some p => unrealized p c.close
    | none => 0)
  ({ led2 with equity_curve := led2.equity_curve ++ [equity] }, out.1)

/-- Modelled from the spec: the per-bar loop over the remaining feed. -/
def runLoop {σ : Type} (strat : σ → Candle → σ × Option OrderIntent)
    (barIndex : ℕ) (st : LedgerState × σ) : List Candle → LedgerState × σ
  | [] => st
  | c :: rest => runLoop strat (barIndex + 1) (stepBar strat barIndex st c) rest

/-- The result record assembled by the runner (spec section 3). -/
structure RunResult where
  initial_capital : ℚ
  final_capital : ℚ
  trades : List Trade
  equity_curve : List ℚ
deriving DecidableEq

/-- Modelled from the spec, section 4.1: run(bar_feed, strategy,
initial_capital); an empty feed fails with EmptyFeedError before the loop
starts, otherwise the loop runs over every bar and the result is
assembled once, final capital including unrealized value at the last
bar (the last equity entry). -/
def runBacktest {σ : Type} (strat : σ → Candle → σ × Option OrderIntent)
    (s0 : σ) (initialCapital : ℚ) (bars : List Candle) : Except String RunResult :=
  if bars.isEmpty then Except.error "EmptyFeedError"
  else
    let res := runLoop strat 0 ({ cash := initialCapital, position := none,
                                  trades := [], equity_curve := [] }, s0) bars
    Except.ok
      { initial_capital := initialCapital
        final_capital := res.1.equity_curve.getLast?.getD res.1.cash
        trades := res.1.trades
        equity_curve := res.1.equity_curve }

/- ----------------------------------------------------------------
   List helpers shared by the strategy embeddings
   ---------------------------------------------------------------- -/

/-- Python l[-n:] slice sum: the sum of the last n elements (the whole
list when n exceeds its length). -/
def tailSum (l : List ℚ) (n : ℕ) : ℚ :=
  (l.drop (l.length - n)).sum

/-- Python append followed by pop(0) when the cap is exceeded:
  self.xs.append(x); if len(self.xs) > cap: self.xs.pop(0). -/
def capAppend (l : List ℚ) (x : ℚ) (cap : ℕ) : List ℚ :=
  let h := l ++ [x]
  if h.length > cap then h.drop 1 else h

/-- Python l[-1] on a list of optional values, totalized: none when the
list is empty (where Python would raise IndexError) or stores None. -/
def lastVal (l : List (Option ℚ)) : Option ℚ :=
  l.getLast?.join

/-- Python l[-2] on a list of optional values, totalized like lastVal. -/
def penultVal (l : List (Option ℚ)) : Option ℚ :=
  (l.get? (l.length - 2)).join

/-- Python l[-2] on a plain list, totalized: none when shorter than 2. -/
def penult (l : List ℚ) : Option ℚ :=
  l.get? (l.length - 2)

/-- Python comparison a <= b on optional values; the guarded sources only
reach it with both present (with a None, Python would raise), modelled as
false. -/
def oleB (a b : Option ℚ) : Bool :=
  match a, b with
  | some x, some y => decide (x ≤ y)
  | _, _ => false

/-- Python comparison a >= b on optional values, as oleB. -/
def ogeB (a b : Option ℚ) : Bool :=
  match a, b with
  | some x, some y => decide (y ≤ x)
  | _, _ => false

end BT

namespace BT.MACrossoverStrategy

/-- State of the generated MACrossoverStrategy class (generateMACrossover
in strategyCodeGenerator.ts).  The constructor constants baked in by the
generator — fast and slow periods, the rounded stop/take percentages and
the baked stop multiplier (1 - sl) — are carried as fields. -/
structure State where
  fast_period : ℕ
  slow_period : ℕ
  sl_pct : ℚ
  tp_pct : ℚ
  sl_mult : ℚ
  price_history : List ℚ
  position : Option String
  initialized : Bool
deriving DecidableEq

/-- Generated initialize method: sets the initialized flag. -/
def initializeFn (s : State) : State := { s with initialized := true }

/-- Generated on_candle: lazy initialization, history capped at 100, and
once enough history exists a BUY intent on a fast-over-slow SMA state while
flat and a CLOSE_ALL on the reverse while LONG.  posSize models the
calculate_position_size call on the broker. -/
def onCandle (posSize : ℚ → ℚ → ℚ) (s : State) (c : Candle) : State × Option OrderIntent :=
  let s1 := if !s.initialized then initializeFn s else s
  let s2 := { s1 with price_history := capAppend s1.price_history c.close 100 }
  if s2.price_history.length ≥ s2.slow_period then
    let fastMa := tailSum s2.price_history s2.fast_period / (s2.fast_period : ℚ)
    let slowMa := tailSum s2.price_history s2.slow_period / (s2.slow_period : ℚ)
    if s2.position = none ∧ fastMa > slowMa then
      let stopLossPrice := c.close * s2.sl_mult
      ({ s2 with position := some "LONG" },
       some { action := Action.BUY, quantity := some (posSize c.close stopLossPrice),
              order_type := some "MARKET", stop_loss_pct := some s2.sl_pct,
              take_profit_pct := some s2.tp_pct, exit_reason := some "MA_CROSSOVER_ENTRY" })
    else if s2.position = some "LONG" ∧ fastMa < slowMa then
      ({ s2 with position := none },
       some { action := Action.CLOSE_ALL, exit_reason := some "MA_CROSSOVER_EXIT" })
    else (s2, none)
  else (s2, none)

end BT.MACrossoverStrategy

namespace BT.EMACrossoverStrategy

/-- State of the generated EMACrossoverStrategy class. -/
structure State where
  fast_period : ℕ
  slow_period : ℕ
  sl_pct : ℚ
  tp_pct : ℚ
  sl_mult : ℚ
  price_history : List ℚ
  position : Option String
  initialized : Bool
deriving DecidableEq

/-- Generated initialize method. -/
def initializeFn (s : State) : State := { s with initialized := true }

/-- Generated on_candle; calcEMA models indicators.calculate_ema from the
external indicator library (entries may be None). -/
def onCandle (calcEMA : List ℚ → ℕ → List (Option ℚ)) (posSize : ℚ → ℚ → ℚ)
    (s : State) (c : Candle) : State × Option OrderIntent :=
  let s1 := if !s.initialized then initializeFn s else s
  let s2 := { s1 with price_history := capAppend s1.price_history c.close 100 }
  if s2.price_history.length ≥ s2.slow_period then
    match lastVal (calcEMA s2.price_history s2.fast_period),
          lastVal (calcEMA s2.price_history s2.slow_period) with
    | some ef, some es =>
        if s2.position = none ∧ ef > es then
          let stopLossPrice := c.close * s2.sl_mult
          ({ s2 with position := some "LONG" },
           some { action := Action.BUY, quantity := some (posSize c.close stopLossPrice),
                  order_type := some "MARKET", stop_loss_pct := some s2.sl_pct,
                  take_profit_pct := some s2.tp_pct, exit_reason := some "EMA_CROSSOVER_ENTRY" })
        else if s2.position = some "LONG" ∧ ef < es then
          ({ s2 with position := none },
           some { action := Action.CLOSE_ALL, exit_reason := some "EMA_CROSSOVER_EXIT" })
        else (s2, none)
    | _, _ => (s2, none)
  else (s2, none)

end BT.EMACrossoverStrategy

namespace BT.TripleMAStrategy

/-- State of the generated TripleMAStrategy class. -/
structure State where
  fast_period : ℕ
  medium_period : ℕ
  slow_period : ℕ
  sl_pct : ℚ
  tp_pct : ℚ
  sl_mult : ℚ
  price_history : List ℚ
  position : Option String
  initialized : Bool
deriving DecidableEq

/-- Generated initialize method. -/
def initializeFn (s : State) : State := { s with initialized := true }

/-- Generated on_candle; history capped at 150, entry on f > m > s while
flat, exit on f < m while LONG; calcSMA models
indicators.calculate_sma. -/
def onCandle (calcSMA : List ℚ → ℕ → List (Option ℚ)) (posSize : ℚ → ℚ → ℚ)
    (s : State) (c : Candle) : State × Option OrderIntent :=
  let s1 := if !s.initialized then initializeFn s else s
  let s2 := { s1 with price_history := capAppend s1.price_history c.close 150 }
  if s2.price_history.length ≥ s2.slow_period then
    match lastVal (calcSMA s2.price_history s2.fast_period),
          lastVal (calcSMA s2.price_history s2.medium_period),
          lastVal (calcSMA s2.price_history s2.slow_period) with
    | some f, some m, some g =>
        if s2.position = none ∧ f > m ∧ m > g then
          let stopLossPrice := c.close * s2.sl_mult
          ({ s2 with position := some "LONG" },
           some { action := Action.BUY, quantity := some (posSize c.close stopLossPrice),
                  order_type := some "MARKET", stop_loss_pct := some s2.sl_pct,
                  take_profit_pct := some s2.tp_pct, exit_reason := some "TRIPLE_MA_ENTRY" })
        else if s2.position = some "LONG" ∧ f < m then
          ({ s2 with position := none },
           some { action := Action.CLOSE_ALL, exit_reason := some "TRIPLE_MA_EXIT" })
        else (s2, none)
    | _, _, _ => (s2, none)
  else (s2, none)

end BT.TripleMAStrategy

namespace BT.PriceVsMAStrategy

/-- State of the generated PriceVsMAStrategy class.  isLong records the
direction baked in by the generator (direction parameter equal to
"long"); the generator bakes the matching action, position_side, stop
multiplier and position string. -/
structure State where
  ma_period : ℕ
  use_ema : Bool
  isLong : Bool
  sl_pct : ℚ
  tp_pct : ℚ
  stop_mult : ℚ
  price_history : List ℚ
  position : Option String
  initialized : Bool
deriving DecidableEq

/-- Generated initialize method. -/
def initializeFn (s : State) : State := { s with initialized := true }

/-- Generated on_candle: entry while flat when the close is on the baked
side of the MA (BUY for long direction, SELL with position_side SHORT for
short direction), CLOSE_ALL when the close crosses back while a position
is held (Python truthiness of self.position: any non-None value). -/
def onCandle (calcSMA calcEMA : List ℚ → ℕ → List (Option ℚ)) (posSize : ℚ → ℚ → ℚ)
    (s : State) (c : Candle) : State × Option OrderIntent :=
  let s1 := if !s.initialized then initializeFn s else s
  let s2 := { s1 with price_history := capAppend s1.price_history c.close 100 }
  if s2.price_history.length ≥ s2.ma_period then
    let maVals := if s2.use_ema then calcEMA s2.price_history s2.ma_period
                  else calcSMA s2.price_history s2.ma_period
    match lastVal maVals with
    | some maVal =>
        if s2.position = none ∧ (if s2.isLong then c.close > maVal else c.close < maVal) then
          let stopLossPrice := c.close * s2.stop_mult
          ({ s2 with position := some (if s2.isLong then "LONG" else "SHORT") },
           some { action := if s2.isLong then Action.BUY else Action.SELL,
                  quantity := some (posSize c.close stopLossPrice),
                  order_type := some "MARKET", stop_loss_pct := some s2.sl_pct,
                  take_profit_pct := some s2.tp_pct,
                  position_side := if s2.isLong then none else some Side.SHORT,
                  exit_reason := some "PRICE_MA_ENTRY" })
        else if s2.position ≠ none ∧ (if s2.isLong then c.close < maVal else c.close > maVal) then
          ({ s2 with position := none },
           some { action := Action.CLOSE_ALL, exit_reason := some "PRICE_MA_EXIT" })
        else (s2, none)
    | none => (s2, none)
  else (s2, none)

end BT.PriceVsMAStrategy

namespace BT.RSIMeanReversionStrategy

/-- State of the generated RSIMeanReversionStrategy class (no position
field: the generated class emits intents from RSI levels alone). -/
structure State where
  rsi_period : ℕ
  rsi_oversold : ℚ
  rsi_overbought : ℚ
  exit_min : ℚ
  exit_max : ℚ
  sl_pct : ℚ
  tp_pct : ℚ
  sl_mult_long : ℚ
  sl_mult_short : ℚ
  price_history : List ℚ
  initialized : Bool
deriving DecidableEq

/-- Generated initialize method. -/
def initializeFn (s : State) : State := { s with initialized := true }

/-- Generated on_candle: BUY when RSI below the oversold level, SELL with
position_side SHORT when above the overbought level, CLOSE_ALL inside the
neutral band; calcRSI models indicators.calculate_rsi. -/
def onCandle (calcRSI : List ℚ → ℕ → List (Option ℚ)) (posSize : ℚ → ℚ → ℚ)
    (s : State) (c : Candle) : State × Option OrderIntent :=
  let s1 := if !s.initialized then initializeFn s else s
  let s2 := { s1 with price_history := capAppend s1.price_history c.close 200 }
  if s2.price_history.length ≥ s2.rsi_period + 1 then
    match lastVal (calcRSI s2.price_history s2.rsi_period) with
    | some curr =>
        if curr < s2.rsi_oversold then
          let slP := c.close * s2.sl_mult_long
          (s2, some { action := Action.BUY, quantity := some (posSize c.close slP),
                      order_type := some "MARKET", stop_loss_pct := some s2.sl_pct,
                      take_profit_pct := some s2.tp_pct, exit_reason := some "RSI_OVERSOLD" })
        else if curr > s2.rsi_overbought then
          let slP := c.close * s2.sl_mult_short
          (s2, some { action := Action.SELL, quantity := some (posSize c.close slP),
                      order_type := some "MARKET", position_side := some Side.SHORT,
                      stop_loss_pct := some s2.sl_pct, take_profit_pct := some s2.tp_pct,
                      exit_reason := some "RSI_OVERBOUGHT" })
        else if s2.exit_min ≤ curr ∧ curr ≤ s2.exit_max then
          (s2, some { action := Action.CLOSE_ALL, exit_reason := some "RSI_NEUTRAL" })
        else (s2, none)
    | none => (s2, none)
  else (s2, none)

end BT.RSIMeanReversionStrategy

namespace BT.StochasticStrategy

/-- State of the generated StochasticStrategy class.  doLong and doShort
are the Python booleans baked in from the direction parameter. -/
structure State where
  period_k : ℕ
  period_d : ℕ
  oversold : ℚ
  overbought : ℚ
  doLong : Bool
  doShort : Bool
  sl_pct : ℚ
  tp_pct : ℚ
  sl_mult_long : ℚ
  sl_mult_short : ℚ
  highs : List ℚ
  lows : List ℚ
  closes : List ℚ
  initialized : Bool
deriving DecidableEq

/-- Generated initialize method. -/
def initializeFn (s : State) : State := { s with initialized := true }

/-- Generated on_candle: the three series are pushed and popped together
when closes exceeds 200; calcStoch models indicators.calculate_stochastic
returning the k and d series. -/
def onCandle (calcStoch : List ℚ → List ℚ → List ℚ → ℕ → ℕ → List (Option ℚ) × List (Option ℚ))
    (posSize : ℚ → ℚ → ℚ) (s : State) (c : Candle) : State × Option OrderIntent :=
  let s1 := if !s.initialized then initializeFn s else s
  let highs1 := s1.highs ++ [c.high]
  let lows1 := s1.lows ++ [c.low]
  let closes1 := s1.closes ++ [c.close]
  let s2 := if closes1.length > 200
            then { s1 with highs := highs1.drop 1, lows := lows1.drop 1, closes := closes1.drop 1 }
            else { s1 with highs := highs1, lows := lows1, closes := closes1 }
  if s2.closes.length ≥ s2.period_k + s2.period_d then
    let stoch := calcStoch s2.highs s2.lows s2.closes s2.period_k s2.period_d
    match lastVal stoch.1, lastVal stoch.2 with
    | some k, some d =>
        if s2.doLong ∧ k < s2.oversold ∧ k > d then
          let slP := c.close * s2.sl_mult_long
          (s2, some { action := Action.BUY, quantity := some (posSize c.close slP),
                      order_type := some "MARKET", stop_loss_pct := some s2.sl_pct,
                      take_profit_pct := some s2.tp_pct, exit_reason := some "STOCH_OVERSOLD" })
        else if s2.doShort ∧ k > s2.overbought ∧ k < d then
          let slP := c.close * s2.sl_mult_short
          (s2, some { action := Action.SELL, quantity := some (posSize c.close slP),
                      order_type := some "MARKET", position_side := some Side.SHORT,
                      stop_loss_pct := some s2.sl_pct, take_profit_pct := some s2.tp_pct,
                      exit_reason := some "STOCH_OVERBOUGHT" })
        else (s2, none)
    | _, _ => (s2, none)
  else (s2, none)

end BT.StochasticStrategy

namespace BT.MACDMomentumStrategy

/-- State of the generated MACDMomentumStrategy class. -/
structure State where
  fast_period : ℕ
  slow_period : ℕ
  signal_period : ℕ
  sl_pct : ℚ
  tp_pct : ℚ
  trail_pct : ℚ
  sl_mult : ℚ
  price_history : List ℚ
  position : Option String
  initialized : Bool
deriving DecidableEq

/-- Generated initialize method. -/
def initializeFn (s : State) : State := { s with initialized := true }

/-- Generated on_candle: entry on a bullish MACD/signal crossover while
flat (the BUY intent carries a trailing_stop), exit on the bearish
crossover while LONG.  calcMACD models indicators.calculate_macd returning
the macd and signal series; the Python code reads the previous values with
a length-two guard only on the macd series, and would raise comparing
None values there — the optional comparisons oleB and ogeB model those
unreachable states as false. -/
def onCandle (calcMACD : List ℚ → ℕ → ℕ → ℕ → List (Option ℚ) × List (Option ℚ))
    (posSize : ℚ → ℚ → ℚ) (s : State) (c : Candle) : State × Option OrderIntent :=
  let s1 := if !s.initialized then initializeFn s else s
  let s2 := { s1 with price_history := capAppend s1.price_history c.close 200 }
  if s2.price_history.length ≥ s2.slow_period then
    let md := calcMACD s2.price_history s2.fast_period s2.slow_period s2.signal_period
    if md.1.length < 2 then (s2, none)
    else
      match lastVal md.1, lastVal md.2 with
      | some cm, some cs =>
          let pm := penultVal md.1
          let ps := penultVal md.2
          if s2.position = none ∧ oleB pm ps ∧ cm > cs then
            let slP := c.close * s2.sl_mult
            ({ s2 with position := some "LONG" },
             some { action := Action.BUY, quantity := some (posSize c.close slP),
                    order_type := some "MARKET", stop_loss_pct := some s2.sl_pct,
                    take_profit_pct := some s2.tp_pct, trailing_stop := some s2.trail_pct,
                    exit_reason := some "MACD_BULLISH" })
          else if s2.position = some "LONG" ∧ ogeB pm ps ∧ cm < cs then
            ({ s2 with position := none },
             some { action := Action.CLOSE_ALL, exit_reason := some "MACD_BEARISH" })
          else (s2, none)
      | _, _ => (s2, none)
  else (s2, none)

end BT.MACDMomentumStrategy

namespace BT.BollingerBandsStrategy

/-- State of the generated BollingerBandsStrategy class. -/
structure State where
  period : ℕ
  std_dev : ℚ
  doLong : Bool
  doShort : Bool
  sl_pct : ℚ
  tp_pct : ℚ
  sl_mult_long : ℚ
  sl_mult_short : ℚ
  price_history : List ℚ
  initialized : Bool
deriving DecidableEq

/-- Generated initialize method. -/
def initializeFn (s : State) : State := { s with initialized := true }

/-- Generated on_candle: BUY at or below the lower band, SELL with
position_side SHORT at or above the upper band; calcBB models
indicators.calculate_bollinger_bands returning the lower and upper
bands. -/
def onCandle (calcBB : List ℚ → ℕ → ℚ → List (Option ℚ) × List (Option ℚ))
    (posSize : ℚ → ℚ → ℚ) (s : State) (c : Candle) : State × Option OrderIntent :=
  let s1 := if !s.initialized then initializeFn s else s
  let s2 := { s1 with price_history := capAppend s1.price_history c.close 100 }
  if s2.price_history.length ≥ s2.period then
    let bb := calcBB s2.price_history s2.period s2.std_dev
    match lastVal bb.1, lastVal bb.2 with
    | some lower, some upper =>
        if s2.doLong ∧ c.close ≤ lower then
          let slP := c.close * s2.sl_mult_long
          (s2, some { action := Action.BUY, quantity := some (posSize c.close slP),
                      order_type := some "MARKET", stop_loss_pct := some s2.sl_pct,
                      take_profit_pct := some s2.tp_pct, exit_reason := some "BB_LOWER_BOUNCE" })
        else if s2.doShort ∧ c.close ≥ upper then
          let slP := c.close * s2.sl_mult_short
          (s2, some { action := Action.SELL, quantity := some (posSize c.close slP),
                      order_type := some "MARKET", position_side := some Side.SHORT,
                      stop_loss_pct := some s2.sl_pct, take_profit_pct := some s2.tp_pct,
                      exit_reason := some "BB_UPPER_BOUNCE" })
        else (s2, none)
    | _, _ => (s2, none)
  else (s2, none)

end BT.BollingerBandsStrategy

namespace BT.ATRTrailingStrategy

/-- State of the generated ATRTrailingStrategy class. -/
structure State where
  atr_period : ℕ
  atr_mult : ℚ
  tp_pct : ℚ
  highs : List ℚ
  lows : List ℚ
  closes : List ℚ
  position : Option String
  highest_since_entry : ℚ
  initialized : Bool
deriving DecidableEq

/-- Generated initialize method. -/
def initializeFn (s : State) : State := { s with initialized := true }

/-- Generated on_candle: while flat, entry when the close is above the
20-bar SMA, with an ATR-distance stop used only for sizing (the BUY intent
carries only a take_profit_pct); while in a position, the trailing level
is the highest high since entry minus the ATR distance and a bar low at or
below it emits CLOSE_ALL.  calcATR models indicators.calculate_atr. -/
def onCandle (calcATR : List ℚ → List ℚ → List ℚ → ℕ → List (Option ℚ))
    (posSize : ℚ → ℚ → ℚ) (s : State) (c : Candle) : State × Option OrderIntent :=
  let s1 := if !s.initialized then initializeFn s else s
  let highs1 := s1.highs ++ [c.high]
  let lows1 := s1.lows ++ [c.low]
  let closes1 := s1.closes ++ [c.close]
  let s2 := if closes1.length > 200
            then { s1 with highs := highs1.drop 1, lows := lows1.drop 1, closes := closes1.drop 1 }
            else { s1 with highs := highs1, lows := lows1, closes := closes1 }
  if s2.closes.length < s2.atr_period + 1 then (s2, none)
  else
    match lastVal (calcATR s2.highs s2.lows s2.closes s2.atr_period) with
    | none => (s2, none)
    | some atr =>
        if atr ≤ 0 then (s2, none)
        else
          let trailDist := atr * s2.atr_mult
          match s2.position with
          | none =>
              let sma20 := if s2.closes = [] then 0
                           else tailSum s2.closes 20 / ((min 20 s2.closes.length : ℕ) : ℚ)
              if c.close > sma20 then
                let stopPrice := c.close - trailDist
                ({ s2 with position := some "LONG", highest_since_entry := c.high },
                 some { action := Action.BUY, quantity := some (posSize c.close stopPrice),
                        order_type := some "MARKET", take_profit_pct := some s2.tp_pct,
                        exit_reason := some "ATR_ENTRY" })
              else (s2, none)
          | some _ =>
              let hi := max s2.highest_since_entry c.high
              let stopPrice := hi - trailDist
              if c.low ≤ stopPrice then
                ({ s2 with highest_since_entry := hi, position := none },
                 some { action := Action.CLOSE_ALL, exit_reason := some "ATR_TRAILING_STOP" })
              else ({ s2 with highest_since_entry := hi }, none)

end BT.ATRTrailingStrategy

namespace BT.SupertrendStrategy

/-- State of the generated SupertrendStrategy class. -/
structure State where
  period : ℕ
  multiplier : ℚ
  sl_pct : ℚ
  tp_pct : ℚ
  sl_mult : ℚ
  highs : List ℚ
  lows : List ℚ
  closes : List ℚ
  position : Option String
  prev_direction : Option String
  initialized : Bool
deriving DecidableEq

/-- Generated initialize method. -/
def initializeFn (s : State) : State := { s with initialized := true }

/-- Generated on_candle: entry while flat on an up-flip of the supertrend
direction, CLOSE_ALL while LONG when the direction is down, and the
previous direction is recorded on every evaluated bar.  calcST models
indicators.calculate_supertrend (st[-1] if the series is non-empty,
which lastVal captures). -/
def onCandle (calcST : List ℚ → List ℚ → List ℚ → ℕ → ℚ → List (Option ℚ))
    (posSize : ℚ → ℚ → ℚ) (s : State) (c : Candle) : State × Option OrderIntent :=
  let s1 := if !s.initialized then initializeFn s else s
  let highs1 := s1.highs ++ [c.high]
  let lows1 := s1.lows ++ [c.low]
  let closes1 := s1.closes ++ [c.close]
  let s2 := if closes1.length > 200
            then { s1 with highs := highs1.drop 1, lows := lows1.drop 1, closes := closes1.drop 1 }
            else { s1 with highs := highs1, lows := lows1, closes := closes1 }
  if s2.closes.length < s2.period + 5 then (s2, none)
  else
    match lastVal (calcST s2.highs s2.lows s2.closes s2.period s2.multiplier) with
    | none => (s2, none)
    | some stVal =>
        let direction := if c.close > stVal then "up" else "down"
        if s2.position = none ∧ direction = "up" ∧ s2.prev_direction = some "down" then
          let slP := c.close * s2.sl_mult
          ({ s2 with position := some "LONG", prev_direction := some direction },
           some { action := Action.BUY, quantity := some (posSize c.close slP),
                  order_type := some "MARKET", stop_loss_pct := some s2.sl_pct,
                  take_profit_pct := some s2.tp_pct, exit_reason := some "SUPERTREND_UP" })
        else if s2.position = some "LONG" ∧ direction = "down" then
          ({ s2 with position := none, prev_direction := some direction },
           some { action := Action.CLOSE_ALL, exit_reason := some "SUPERTREND_DOWN" })
        else ({ s2 with prev_direction := some direction }, none)

end BT.SupertrendStrategy

namespace BT.RSIMACDComboStrategy

/-- State of the generated RSIMACDComboStrategy class. -/
structure State where
  rsi_period : ℕ
  rsi_filter : ℚ
  macd_fast : ℕ
  macd_slow : ℕ
  macd_signal : ℕ
  sl_pct : ℚ
  tp_pct : ℚ
  sl_mult : ℚ
  price_history : List ℚ
  position : Option String
  initialized : Bool
deriving DecidableEq

/-- Generated initialize method. -/
def initializeFn (s : State) : State := { s with initialized := true }

/-- Generated on_candle: entry while flat when RSI is above the filter and
the MACD crosses bullishly, exit on the bearish crossover while LONG. -/
def onCandle (calcRSI : List ℚ → ℕ → List (Option ℚ))
    (calcMACD : List ℚ → ℕ → ℕ → ℕ → List (Option ℚ) × List (Option ℚ))
    (posSize : ℚ → ℚ → ℚ) (s : State) (c : Candle) : State × Option OrderIntent :=
  let s1 := if !s.initialized then initializeFn s else s
  let s2 := { s1 with price_history := capAppend s1.price_history c.close 200 }
  if s2.price_history.length < max s2.rsi_period s2.macd_slow + 2 then (s2, none)
  else
    let md := calcMACD s2.price_history s2.macd_fast s2.macd_slow s2.macd_signal
    match lastVal (calcRSI s2.price_history s2.rsi_period) with
    | none => (s2, none)
    | some rsi =>
        if md.1.length < 2 then (s2, none)
        else
          match lastVal md.1, lastVal md.2 with
          | some cm, some cs =>
              let pm := penultVal md.1
              let ps := penultVal md.2
              if s2.position = none ∧ rsi > s2.rsi_filter ∧ oleB pm ps ∧ cm > cs then
                let slP := c.close * s2.sl_mult
                ({ s2 with position := some "LONG" },
                 some { action := Action.BUY, quantity := some (posSize c.close slP),
                        order_type := some "MARKET", stop_loss_pct := some s2.sl_pct,
                        take_profit_pct := some s2.tp_pct, exit_reason := some "RSI_MACD_ENTRY" })
              else if s2.position = some "LONG" ∧ ogeB pm ps ∧ cm < cs then
                ({ s2 with position := none },
                 some { action := Action.CLOSE_ALL, exit_reason := some "RSI_MACD_EXIT" })
              else (s2, none)
          | _, _ => (s2, none)

end BT.RSIMACDComboStrategy

namespace BT

/-- Claim C6 property of an emitted intent: the quantity key is present
exactly when the action is BUY or SELL. -/
def quantityOk (o : Option OrderIntent) : Bool :=
  match o with
  | none => true
  | some i => i.quantity.isSome == decide (i.action = Action.BUY ∨ i.action = Action.SELL)

/-- Claim C7 property of an emitted intent: a SELL explicitly sets
position_side SHORT and a BUY omits position_side. -/
def sideOk (o : Option OrderIntent) : Bool :=
  match o with
  | none => true
  | some i =>
      decide (i.action = Action.SELL → i.position_side = some Side.SHORT) &&
      decide (i.action = Action.BUY → i.position_side = none)

end BT

namespace BT.MACrossoverStrategy

/-- Every intent the generated MA crossover class emits satisfies the
quantity-presence property. -/
theorem maCross_qty_ok (posSize : ℚ → ℚ → ℚ) (s : State) (c : Candle) :
    quantityOk (onCandle posSize s c).2 = true := by
  unfold onCandle
  dsimp only
  repeat' split
  all_goals rfl

/-- Every intent the generated MA crossover class emits satisfies the
position_side property. -/
theorem maCross_side_ok (posSize : ℚ → ℚ → ℚ) (s : State) (c : Candle) :
    sideOk (onCandle posSize s c).2 = true := by
  unfold onCandle
  dsimp only
  repeat' split
  all_goals rfl

/-- The generated initialize method is idempotent. -/
theorem maCross_init_idem (s : State) : initializeFn (initializeFn s) = initializeFn s := rfl

/-- on_candle behaves as if the strategy were initialized first (the lazy
call to initialize on the first bar). -/
theorem maCross_lazy_init (posSize : ℚ → ℚ → ℚ) (s : State) (c : Candle) :
    onCandle posSize s c = onCandle posSize (initializeFn s) c := by
  obtain ⟨fp, sp, a, b, m, ph, pos, ini⟩ := s
  cases ini <;> rfl

/-- After any on_candle call the strategy is initialized. -/
theorem maCross_flag_true (posSize : ℚ → ℚ → ℚ) (s : State) (c : Candle) :
    ((onCandle posSize s c).1).initialized = true := by
  obtain ⟨fp, sp, a, b, m, ph, pos, ini⟩ := s
  cases ini <;> (unfold onCandle initializeFn; dsimp only; repeat' split) <;>
    first
      | rfl
      | simp_all

end BT.MACrossoverStrategy

namespace BT.EMACrossoverStrategy

/-- Every intent the generated class emits satisfies the
quantity-presence property. -/
theorem emaCross_qty_ok (calcEMA : List ℚ → ℕ → List (Option ℚ)) (posSize : ℚ → ℚ → ℚ) (s : State) (c : Candle) :
    quantityOk (onCandle calcEMA posSize s c).2 = true := by
  unfold onCandle
  dsimp only
  repeat' split
  all_goals rfl

/-- Every intent the generated class emits satisfies the position_side
property. -/
theorem emaCross_side_ok (calcEMA : List ℚ → ℕ → List (Option ℚ)) (posSize : ℚ → ℚ → ℚ) (s : State) (c : Candle) :
    sideOk (onCandle calcEMA posSize s c).2 = true := by
  unfold onCandle
  dsimp only
  repeat' split
  all_goals rfl

/-- The generated initialize method is idempotent. -/
theorem emaCross_init_idem (s : State) : initializeFn (initializeFn s) = initializeFn s := rfl

/-- on_candle behaves as if the strategy were initialized first. -/
theorem emaCross_lazy_init (calcEMA : List ℚ → ℕ → List (Option ℚ)) (posSize : ℚ → ℚ → ℚ) (s : State) (c : Candle) :
    onCandle calcEMA posSize s c = onCandle calcEMA posSize (initializeFn s) c := by
  obtain ⟨_, _, _, _, _, _, _, ini⟩ := s
  cases ini <;> rfl

/-- After any on_candle call the strategy is initialized. -/
theorem emaCross_flag_true (calcEMA : List ℚ → ℕ → List (Option ℚ)) (posSize : ℚ → ℚ → ℚ) (s : State) (c : Candle) :
    ((onCandle calcEMA posSize s c).1).initialized = true := by
  obtain ⟨_, _, _, _, _, _, _, ini⟩ := s
  cases ini <;> (unfold onCandle initializeFn; dsimp only; repeat' split) <;>
    first
      | rfl
      | simp_all

end BT.EMACrossoverStrategy

namespace BT.TripleMAStrategy

/-- Every intent the generated class emits satisfies the
quantity-presence property. -/
theorem tripleMA_qty_ok (calcSMA : List ℚ → ℕ → List (Option ℚ)) (posSize : ℚ → ℚ → ℚ) (s : State) (c : Candle) :
    quantityOk (onCandle calcSMA posSize s c).2 = true := by
  unfold onCandle
  dsimp only
  repeat' split
  all_goals rfl

/-- Every intent the generated class emits satisfies the position_side
property. -/
theorem tripleMA_side_ok (calcSMA : List ℚ → ℕ → List (Option ℚ)) (posSize : ℚ → ℚ → ℚ) (s : State) (c : Candle) :
    sideOk (onCandle calcSMA posSize s c).2 = true := by
  unfold onCandle
  dsimp only
  repeat' split
  all_goals rfl

/-- The generated initialize method is idempotent. -/
theorem tripleMA_init_idem (s : State) : initializeFn (initializeFn s) = initializeFn s := rfl

/-- on_candle behaves as if the strategy were initialized first. -/
theorem tripleMA_lazy_init (calcSMA : List ℚ → ℕ → List (Option ℚ)) (posSize : ℚ → ℚ → ℚ) (s : State) (c : Candle) :
    onCandle calcSMA posSize s c = onCandle calcSMA posSize (initializeFn s) c := by
  obtain ⟨_, _, _, _, _, _, _, _, ini⟩ := s
  cases ini <;> rfl

/-- After any on_candle call the strategy is initialized. -/
theorem tripleMA_flag_true (calcSMA : List ℚ → ℕ → List (Option ℚ)) (posSize : ℚ → ℚ → ℚ) (s : State) (c : Candle) :
    ((onCandle calcSMA posSize s c).1).initialized = true := by
  obtain ⟨_, _, _, _, _, _, _, _, ini⟩ := s
  cases ini <;> (unfold onCandle initializeFn; dsimp only; repeat' split) <;>
    first
      | rfl
      | simp_all

end BT.TripleMAStrategy

namespace BT.PriceVsMAStrategy

/-- Every intent the generated class emits satisfies the
quantity-presence property. -/
theorem priceMA_qty_ok (calcSMA calcEMA : List ℚ → ℕ → List (Option ℚ)) (posSize : ℚ → ℚ → ℚ) (s : State) (c : Candle) :
    quantityOk (onCandle calcSMA calcEMA posSize s c).2 = true := by
  unfold onCandle
  dsimp only
  repeat' split
  all_goals rfl

/-- Every intent the generated class emits satisfies the position_side
property. -/
theorem priceMA_side_ok (calcSMA calcEMA : List ℚ → ℕ → List (Option ℚ)) (posSize : ℚ → ℚ → ℚ) (s : State) (c : Candle) :
    sideOk (onCandle calcSMA calcEMA posSize s c).2 = true := by
  unfold onCandle
  dsimp only
  repeat' split
  all_goals rfl

/-- The generated initialize method is idempotent. -/
theorem priceMA_init_idem (s : State) : initializeFn (initializeFn s) = initializeFn s := rfl

/-- on_candle behaves as if the strategy were initialized first. -/
theorem priceMA_lazy_init (calcSMA calcEMA : List ℚ → ℕ → List (Option ℚ)) (posSize : ℚ → ℚ → ℚ) (s : State) (c : Candle) :
    onCandle calcSMA calcEMA posSize s c = onCandle calcSMA calcEMA posSize (initializeFn s) c := by
  obtain ⟨_, _, _, _, _, _, _, _, ini⟩ := s
  cases ini <;> rfl

/-- After any on_candle call the strategy is initialized. -/
theorem priceMA_flag_true (calcSMA calcEMA : List ℚ → ℕ → List (Option ℚ)) (posSize : ℚ → ℚ → ℚ) (s : State) (c : Candle) :
    ((onCandle calcSMA calcEMA posSize s c).1).initialized = true := by
  obtain ⟨_, _, _, _, _, _, _, _, ini⟩ := s
  cases ini <;> (unfold onCandle initializeFn; dsimp only; repeat' split) <;>
    first
      | rfl
      | simp_all

end BT.PriceVsMAStrategy

namespace BT.RSIMeanReversionStrategy

/-- Every intent the generated class emits satisfies the
quantity-presence property. -/
theorem rsiMR_qty_ok (calcRSI : List ℚ → ℕ → List (Option ℚ)) (posSize : ℚ → ℚ → ℚ) (s : State) (c : Candle) :
    quantityOk (onCandle calcRSI posSize s c).2 = true := by
  unfold onCandle
  dsimp only
  repeat' split
  all_goals rfl

/-- Every intent the generated class emits satisfies the position_side
property. -/
theorem rsiMR_side_ok (calcRSI : List ℚ → ℕ → List (Option ℚ)) (posSize : ℚ → ℚ → ℚ) (s : State) (c : Candle) :
    sideOk (onCandle calcRSI posSize s c).2 = true := by
  unfold onCandle
  dsimp only
  repeat' split
  all_goals rfl

/-- The generated initialize method is idempotent. -/
theorem rsiMR_init_idem (s : State) : initializeFn (initializeFn s) = initializeFn s := rfl

/-- on_candle behaves as if the strategy were initialized first. -/
theorem rsiMR_lazy_init (calcRSI : List ℚ → ℕ → List (Option ℚ)) (posSize : ℚ → ℚ → ℚ) (s : State) (c : Candle) :
    onCandle calcRSI posSize s c = onCandle calcRSI posSize (initializeFn s) c := by
  obtain ⟨_, _, _, _, _, _, _, _, _, _, ini⟩ := s
  cases ini <;> rfl

/-- After any on_candle call the strategy is initialized. -/
theorem rsiMR_flag_true (calcRSI : List ℚ → ℕ → List (Option ℚ)) (posSize : ℚ → ℚ → ℚ) (s : State) (c : Candle) :
    ((onCandle calcRSI posSize s c).1).initialized = true := by
  obtain ⟨_, _, _, _, _, _, _, _, _, _, ini⟩ := s
  cases ini <;> (unfold onCandle initializeFn; dsimp only; repeat' split) <;>
    first
      | rfl
      | simp_all

end BT.RSIMeanReversionStrategy

namespace BT.StochasticStrategy

/-- Every intent the generated class emits satisfies the
quantity-presence property. -/
theorem stoch_qty_ok (calcStoch : List ℚ → List ℚ → List ℚ → ℕ → ℕ → List (Option ℚ) × List (Option ℚ)) (posSize : ℚ → ℚ → ℚ) (s : State) (c : Candle) :
    quantityOk (onCandle calcStoch posSize s c).2 = true := by
  unfold onCandle
  dsimp only
  repeat' split
  all_goals rfl

/-- Every intent the generated class emits satisfies the position_side
property. -/
theorem stoch_side_ok (calcStoch : List ℚ → List ℚ → List ℚ → ℕ → ℕ → List (Option ℚ) × List (Option ℚ)) (posSize : ℚ → ℚ → ℚ) (s : State) (c : Candle) :
    sideOk (onCandle calcStoch posSize s c).2 = true := by
  unfold onCandle
  dsimp only
  repeat' split
  all_goals rfl

/-- The generated initialize method is idempotent. -/
theorem stoch_init_idem (s : State) : initializeFn (initializeFn s) = initializeFn s := rfl

/-- on_candle behaves as if the strategy were initialized first. -/
theorem stoch_lazy_init (calcStoch : List ℚ → List ℚ → List ℚ → ℕ → ℕ → List (Option ℚ) × List (Option ℚ)) (posSize : ℚ → ℚ → ℚ) (s : State) (c : Candle) :
    onCandle calcStoch posSize s c = onCandle calcStoch posSize (initializeFn s) c := by
  obtain ⟨_, _, _, _, _, _, _, _, _, _, _, _, _, ini⟩ := s
  cases ini <;> rfl

/-- After any on_candle call the strategy is initialized. -/
theorem stoch_flag_true (calcStoch : List ℚ → List ℚ → List ℚ → ℕ → ℕ → List (Option ℚ) × List (Option ℚ)) (posSize : ℚ → ℚ → ℚ) (s : State) (c : Candle) :
    ((onCandle calcStoch posSize s c).1).initialized = true := by
  obtain ⟨_, _, _, _, _, _, _, _, _, _, _, _, _, ini⟩ := s
  cases ini <;> (unfold onCandle initializeFn; dsimp only; repeat' split) <;>
    first
      | rfl
      | simp_all

end BT.StochasticStrategy

namespace BT.MACDMomentumStrategy

/-- Every intent the generated class emits satisfies the
quantity-presence property. -/
theorem macdMom_qty_ok (calcMACD : List ℚ → ℕ → ℕ → ℕ → List (Option ℚ) × List (Option ℚ)) (posSize : ℚ → ℚ → ℚ) (s : State) (c : Candle) :
    quantityOk (onCandle calcMACD posSize s c).2 = true := by
  unfold onCandle
  dsimp only
  repeat' split
  all_goals rfl

/-- Every intent the generated class emits satisfies the position_side
property. -/
theorem macdMom_side_ok (calcMACD : List ℚ → ℕ → ℕ → ℕ → List (Option ℚ) × List (Option ℚ)) (posSize : ℚ → ℚ → ℚ) (s : State) (c : Candle) :
    sideOk (onCandle calcMACD posSize s c).2 = true := by
  unfold onCandle
  dsimp only
  repeat' split
  all_goals rfl

/-- The generated initialize method is idempotent. -/
theorem macdMom_init_idem (s : State) : initializeFn (initializeFn s) = initializeFn s := rfl

/-- on_candle behaves as if the strategy were initialized first. -/
theorem macdMom_lazy_init (calcMACD : List ℚ → ℕ → ℕ → ℕ → List (Option ℚ) × List (Option ℚ)) (posSize : ℚ → ℚ → ℚ) (s : State) (c : Candle) :
    onCandle calcMACD posSize s c = onCandle calcMACD posSize (initializeFn s) c := by
  obtain ⟨_, _, _, _, _, _, _, _, _, ini⟩ := s
  cases ini <;> rfl

/-- After any on_candle call the strategy is initialized. -/
theorem macdMom_flag_true (calcMACD : List ℚ → ℕ → ℕ → ℕ → List (Option ℚ) × List (Option ℚ)) (posSize : ℚ → ℚ → ℚ) (s : State) (c : Candle) :
    ((onCandle calcMACD posSize s c).1).initialized = true := by
  obtain ⟨_, _, _, _, _, _, _, _, _, ini⟩ := s
  cases ini <;> (unfold onCandle initializeFn; dsimp only; repeat' split) <;>
    first
      | rfl
      | simp_all

end BT.MACDMomentumStrategy

namespace BT.BollingerBandsStrategy

/-- Every intent the generated class emits satisfies the
quantity-presence property. -/
theorem boll_qty_ok (calcBB : List ℚ → ℕ → ℚ → List (Option ℚ) × List (Option ℚ)) (posSize : ℚ → ℚ → ℚ) (s : State) (c : Candle) :
    quantityOk (onCandle calcBB posSize s c).2 = true := by
  unfold onCandle
  dsimp only
  repeat' split
  all_goals rfl

/-- Every intent the generated class emits satisfies the position_side
property. -/
theorem boll_side_ok (calcBB : List ℚ → ℕ → ℚ → List (Option ℚ) × List (Option ℚ)) (posSize : ℚ → ℚ → ℚ) (s : State) (c : Candle) :
    sideOk (onCandle calcBB posSize s c).2 = true := by
  unfold onCandle
  dsimp only
  repeat' split
  all_goals rfl

/-- The generated initialize method is idempotent. -/
theorem boll_init_idem (s : State) : initializeFn (initializeFn s) = initializeFn s := rfl

/-- on_candle behaves as if the strategy were initialized first. -/
theorem boll_lazy_init (calcBB : List ℚ → ℕ → ℚ → List (Option ℚ) × List (Option ℚ)) (posSize : ℚ → ℚ → ℚ) (s : State) (c : Candle) :
    onCandle calcBB posSize s c = onCandle calcBB posSize (initializeFn s) c := by
  obtain ⟨_, _, _, _, _, _, _, _, _, ini⟩ := s
  cases ini <;> rfl

/-- After any on_candle call the strategy is initialized. -/
theorem boll_flag_true (calcBB : List ℚ → ℕ → ℚ → List (Option ℚ) × List (Option ℚ)) (posSize : ℚ → ℚ → ℚ) (s : State) (c : Candle) :
    ((onCandle calcBB posSize s c).1).initialized = true := by
  obtain ⟨_, _, _, _, _, _, _, _, _, ini⟩ := s
  cases ini <;> (unfold onCandle initializeFn; dsimp only; repeat' split) <;>
    first
      | rfl
      | simp_all

end BT.BollingerBandsStrategy

namespace BT.ATRTrailingStrategy

/-- Every intent the generated class emits satisfies the
quantity-presence property. -/
theorem atrTrail_qty_ok (calcATR : List ℚ → List ℚ → List ℚ → ℕ → List (Option ℚ)) (posSize : ℚ → ℚ → ℚ) (s : State) (c : Candle) :
    quantityOk (onCandle calcATR posSize s c).2 = true := by
  unfold onCandle
  dsimp only
  repeat' split
  all_goals rfl

/-- Every intent the generated class emits satisfies the position_side
property. -/
theorem atrTrail_side_ok (calcATR : List ℚ → List ℚ → List ℚ → ℕ → List (Option ℚ)) (posSize : ℚ → ℚ → ℚ) (s : State) (c : Candle) :
    sideOk (onCandle calcATR posSize s c).2 = true := by
  unfold onCandle
  dsimp only
  repeat' split
  all_goals rfl

/-- The generated initialize method is idempotent. -/
theorem atrTrail_init_idem (s : State) : initializeFn (initializeFn s) = initializeFn s := rfl

/-- on_candle behaves as if the strategy were initialized first. -/
theorem atrTrail_lazy_init (calcATR : List ℚ → List ℚ → List ℚ → ℕ → List (Option ℚ)) (posSize : ℚ → ℚ → ℚ) (s : State) (c : Candle) :
    onCandle calcATR posSize s c = onCandle calcATR posSize (initializeFn s) c := by
  obtain ⟨_, _, _, _, _, _, _, _, ini⟩ := s
  cases ini <;> rfl

/-- After any on_candle call the strategy is initialized. -/
theorem atrTrail_flag_true (calcATR : List ℚ → List ℚ → List ℚ → ℕ → List (Option ℚ)) (posSize : ℚ → ℚ → ℚ) (s : State) (c : Candle) :
    ((onCandle calcATR posSize s c).1).initialized = true := by
  obtain ⟨_, _, _, _, _, _, _, _, ini⟩ := s
  cases ini <;> (unfold onCandle initializeFn; dsimp only; repeat' split) <;>
    first
      | rfl
      | simp_all

end BT.ATRTrailingStrategy

namespace BT.SupertrendStrategy

/-- Every intent the generated class emits satisfies the
quantity-presence property. -/
theorem superT_qty_ok (calcST : List ℚ → List ℚ → List ℚ → ℕ → ℚ → List (Option ℚ)) (posSize : ℚ → ℚ → ℚ) (s : State) (c : Candle) :
    quantityOk (onCandle calcST posSize s c).2 = true := by
  unfold onCandle
  dsimp only
  repeat' split
  all_goals rfl

/-- Every intent the generated class emits satisfies the position_side
property. -/
theorem superT_side_ok (calcST : List ℚ → List ℚ → List ℚ → ℕ → ℚ → List (Option ℚ)) (posSize : ℚ → ℚ → ℚ) (s : State) (c : Candle) :
    sideOk (onCandle calcST posSize s c).2 = true := by
  unfold onCandle
  dsimp only
  repeat' split
  all_goals rfl

/-- The generated initialize method is idempotent. -/
theorem superT_init_idem (s : State) : initializeFn (initializeFn s) = initializeFn s := rfl

/-- on_candle behaves as if the strategy were initialized first. -/
theorem superT_lazy_init (calcST : List ℚ → List ℚ → List ℚ → ℕ → ℚ → List (Option ℚ)) (posSize : ℚ → ℚ → ℚ) (s : State) (c : Candle) :
    onCandle calcST posSize s c = onCandle calcST posSize (initializeFn s) c := by
  obtain ⟨_, _, _, _, _, _, _, _, _, _, ini⟩ := s
  cases ini <;> rfl

/-- After any on_candle call the strategy is initialized. -/
theorem superT_flag_true (calcST : List ℚ → List ℚ → List ℚ → ℕ → ℚ → List (Option ℚ)) (posSize : ℚ → ℚ → ℚ) (s : State) (c : Candle) :
    ((onCandle calcST posSize s c).1).initialized = true := by
  obtain ⟨_, _, _, _, _, _, _, _, _, _, ini⟩ := s
  cases ini <;> (unfold onCandle initializeFn; dsimp only; repeat' split) <;>
    first
      | rfl
      | simp_all

end BT.SupertrendStrategy

namespace BT.RSIMACDComboStrategy

/-- Every intent the generated class emits satisfies the
quantity-presence property. -/
theorem rsiMacd_qty_ok (calcRSI : List ℚ → ℕ → List (Option ℚ)) (calcMACD : List ℚ → ℕ → ℕ → ℕ → List (Option ℚ) × List (Option ℚ)) (posSize : ℚ → ℚ → ℚ) (s : State) (c : Candle) :
    quantityOk (onCandle calcRSI calcMACD posSize s c).2 = true := by
  unfold onCandle
  dsimp only
  repeat' split
  all_goals rfl

/-- Every intent the generated class emits satisfies the position_side
property. -/
theorem rsiMacd_side_ok (calcRSI : List ℚ → ℕ → List (Option ℚ)) (calcMACD : List ℚ → ℕ → ℕ → ℕ → List (Option ℚ) × List (Option ℚ)) (posSize : ℚ → ℚ → ℚ) (s : State) (c : Candle) :
    sideOk (onCandle calcRSI calcMACD posSize s c).2 = true := by
  unfold onCandle
  dsimp only
  repeat' split
  all_goals rfl

/-- The generated initialize method is idempotent. -/
theorem rsiMacd_init_idem (s : State) : initializeFn (initializeFn s) = initializeFn s := rfl

/-- on_candle behaves as if the strategy were initialized first. -/
theorem rsiMacd_lazy_init (calcRSI : List ℚ → ℕ → List (Option ℚ)) (calcMACD : List ℚ → ℕ → ℕ → ℕ → List (Option ℚ) × List (Option ℚ)) (posSize : ℚ → ℚ → ℚ) (s : State) (c : Candle) :
    onCandle calcRSI calcMACD posSize s c = onCandle calcRSI calcMACD posSize (initializeFn s) c := by
  obtain ⟨_, _, _, _, _, _, _, _, _, _, ini⟩ := s
  cases ini <;> rfl

/-- After any on_candle call the strategy is initialized. -/
theorem rsiMacd_flag_true (calcRSI : List ℚ → ℕ → List (Option ℚ)) (calcMACD : List ℚ → ℕ → ℕ → ℕ → List (Option ℚ) × List (Option ℚ)) (posSize : ℚ → ℚ → ℚ) (s : State) (c : Candle) :
    ((onCandle calcRSI calcMACD posSize s c).1).initialized = true := by
  obtain ⟨_, _, _, _, _, _, _, _, _, _, ini⟩ := s
  cases ini <;> (unfold onCandle initializeFn; dsimp only; repeat' split) <;>
    first
      | rfl
      | simp_all

end BT.RSIMACDComboStrategy

namespace BT.ReadmeMACross

/-- State of the example MACrossoverStrategy in src/backend/README.md
(Step 4): configuration set in the constructor plus the mutable data
fields. -/
structure State where
  fast_period : ℕ
  slow_period : ℕ
  quantity : ℚ
  stop_loss_pct : ℚ
  take_profit_pct : ℚ
  price_history : List ℚ
  fast_ma : List ℚ
  slow_ma : List ℚ
  position : Option String
  entry_price : Option ℚ
  initialized : Bool
deriving DecidableEq

/-- The initialize method of the README example strategy: sets the
initialized flag. -/
def initializeFn (s : State) : State := { s with initialized := true }

/-- Entry leg of on_candle: fast MA crossing above slow MA while flat
opens LONG and emits the BUY intent with absolute stop_loss and
take_profit prices relative to the close (README keys stop_loss and
take_profit, the absolute-price fields of the intent). -/
def entryCheck (s : State) (c : Candle) : State × Option OrderIntent :=
  if s.position = none ∧ s.fast_ma.length ≥ 2 ∧ s.slow_ma.length ≥ 2 then
    match penult s.fast_ma, s.fast_ma.getLast?, penult s.slow_ma, s.slow_ma.getLast? with
    | some f2, some f1, some g2, some g1 =>
        if f2 ≤ g2 ∧ f1 > g1 then
          ({ s with position := some "LONG", entry_price := some c.close },
           some { action := Action.BUY, quantity := some s.quantity,
                  order_type := some "MARKET",
                  stop_loss_price := some (c.close * (1 - s.stop_loss_pct)),
                  take_profit_price := some (c.close * (1 + s.take_profit_pct)) })
        else (s, none)
    | _, _, _, _ => (s, none)
  else (s, none)

/-- Embedding of on_candle of the README example strategy: lazy
initialization, price history capped at 100, moving averages appended and
capped at 50, then — with an open LONG position — the stop-loss check
first, the take-profit check second, the crossover exit third, and
otherwise the entry check.  With no open position control falls through
to the entry check directly (the Python block under position == "LONG" is
skipped). -/
def onCandle (s : State) (c : Candle) : State × Option OrderIntent :=
  let s1 := if !s.initialized then initializeFn s else s
  let s2 := { s1 with price_history := capAppend s1.price_history c.close 100 }
  if s2.price_history.length ≥ s2.slow_period then
    let fastMa := tailSum s2.price_history s2.fast_period / (s2.fast_period : ℚ)
    let slowMa := tailSum s2.price_history s2.slow_period / (s2.slow_period : ℚ)
    let s3 := { s2 with fast_ma := s2.fast_ma ++ [fastMa], slow_ma := s2.slow_ma ++ [slowMa] }
    let s4 := if s3.fast_ma.length > 50
              then { s3 with fast_ma := s3.fast_ma.drop 1, slow_ma := s3.slow_ma.drop 1 }
              else s3
    if s4.position = some "LONG" then
      match s4.entry_price with
      | some e =>
          if c.low ≤ e * (1 - s4.stop_loss_pct) then
            ({ s4 with position := none },
             some { action := Action.SELL, quantity := some s4.quantity,
                    order_type := some "MARKET", exit_reason := some "STOP_LOSS" })
          else if c.high ≥ e * (1 + s4.take_profit_pct) then
            ({ s4 with position := none },
             some { action := Action.SELL, quantity := some s4.quantity,
                    order_type := some "MARKET", exit_reason := some "TAKE_PROFIT" })
          else if s4.fast_ma.length ≥ 2 ∧ s4.slow_ma.length ≥ 2 then
            match penult s4.fast_ma, s4.fast_ma.getLast?, penult s4.slow_ma, s4.slow_ma.getLast? with
            | some f2, some f1, some g2, some g1 =>
                if f2 ≥ g2 ∧ f1 < g1 then
                  ({ s4 with position := none },
                   some { action := Action.SELL, quantity := some s4.quantity,
                          order_type := some "MARKET", exit_reason := some "MA_CROSSOVER" })
                else entryCheck s4 c
            | _, _, _, _ => entryCheck s4 c
          else entryCheck s4 c
      | none => entryCheck s4 c
    else entryCheck s4 c
  else (s2, none)

end BT.ReadmeMACross

namespace BT

/-- Intermediate ledger updates do not touch the equity curve; only the
final append of stepBar does. -/
theorem applyIntent_equity_curve (led : LedgerState) (i : OrderIntent) (c : Candle) (k : ℕ) :
    (applyIntent led i c k).equity_curve = led.equity_curve := by
  unfold applyIntent
  cases i.action <;> cases hP : led.position <;> simp [hP] <;> (repeat' split) <;> rfl

/-- The exit step does not touch the equity curve. -/
theorem exitStep_equity_curve (led : LedgerState) (c : Candle) (k : ℕ) :
    (exitStep led c k).equity_curve = led.equity_curve := by
  unfold exitStep
  cases hP : led.position <;> simp [hP]
  split <;> rfl

/-- The ledger intent application only ever appends to the trade list. -/
theorem applyIntent_trades_append (led : LedgerState) (i : OrderIntent) (c : Candle) (k : ℕ) :
    ∃ tl, (applyIntent led i c k).trades = led.trades ++ tl := by
  unfold applyIntent
  cases i.action <;> cases hP : led.position <;> simp [hP] <;> (repeat' split) <;>
    exact ⟨[], by simp⟩

/-- The exit step only ever appends to the trade list. -/
theorem exitStep_trades_append (led : LedgerState) (c : Candle) (k : ℕ) :
    ∃ tl, (exitStep led c k).trades = led.trades ++ tl := by
  cases hP : led.position with
  | none => exact ⟨[], by simp [exitStep, hP]⟩
  | some p =>
      cases hE : checkExit p c with
      | some pr =>
          exact ⟨[closeTrade p pr.1 pr.2 c.timestamp k], by simp [exitStep, hP, hE]⟩
      | none => exact ⟨[], by simp [exitStep, hP, hE]⟩

/-- One loop iteration appends exactly one equity entry. -/
theorem stepBar_equity_len {σ : Type} (strat : σ → Candle → σ × Option OrderIntent)
    (k : ℕ) (st : LedgerState × σ) (c : Candle) :
    ((stepBar strat k st c).1).equity_curve.length = st.1.equity_curve.length + 1 := by
  unfold stepBar
  cases hI : (strat st.2 c).2 <;>
    simp [hI, applyIntent_equity_curve, exitStep_equity_curve]

/-- One loop iteration only appends to the trade list. -/
theorem stepBar_trades_append {σ : Type} (strat : σ → Candle → σ × Option OrderIntent)
    (k : ℕ) (st : LedgerState × σ) (c : Candle) :
    ∃ tl, ((stepBar strat k st c).1).trades = st.1.trades ++ tl := by
  unfold stepBar
  cases hI : (strat st.2 c).2 with
  | none =>
      obtain ⟨tl, htl⟩ := exitStep_trades_append st.1 c k
      exact ⟨tl, by simp [hI, htl]⟩
  | some i =>
      obtain ⟨tl1, h1⟩ := exitStep_trades_append st.1 c k
      obtain ⟨tl2, h2⟩ := applyIntent_trades_append (exitStep st.1 c k) i c k
      exact ⟨tl1 ++ tl2, by simp [hI, h2, h1]⟩

/-- Over the whole loop the equity curve grows by one entry per bar. -/
theorem runLoop_equity_len {σ : Type} (strat : σ → Candle → σ × Option OrderIntent) :
    ∀ (bars : List Candle) (k : ℕ) (st : LedgerState × σ),
      ((runLoop strat k st bars).1).equity_curve.length
        = st.1.equity_curve.length + bars.length := by
  intro bars
  induction bars with
  | nil => intro k st; simp [runLoop]
  | cons c rest ih =>
      intro k st
      simp [runLoop, ih, stepBar_equity_len]
      omega

/-- Over the whole loop the trade list only grows by appending. -/
theorem runLoop_trades_append {σ : Type} (strat : σ → Candle → σ × Option OrderIntent) :
    ∀ (bars : List Candle) (k : ℕ) (st : LedgerState × σ),
      ∃ tl, ((runLoop strat k st bars).1).trades = st.1.trades ++ tl := by
  intro bars
  induction bars with
  | nil => intro k st; exact ⟨[], by simp [runLoop]⟩
  | cons c rest ih =>
      intro k st
      obtain ⟨tl1, h1⟩ := stepBar_trades_append strat k st c
      obtain ⟨tl2, h2⟩ := ih (k + 1) (stepBar strat k st c)
      exact ⟨tl1 ++ tl2, by simp [runLoop, h2, h1]⟩

/-- Claim C2: for every non-empty bar feed the completed run returns a
result whose equity curve has exactly one entry per bar. -/
theorem c2_equity_curve_length {σ : Type} (strat : σ → Candle → σ × Option OrderIntent)
    (s0 : σ) (initialCapital : ℚ) (bars : List Candle) (h : bars ≠ []) :
    ∃ r, runBacktest strat s0 initialCapital bars = Except.ok r ∧
      r.equity_curve.length = bars.length := by
  unfold runBacktest
  rw [if_neg (by simpa using h)]
  refine ⟨_, rfl, ?_⟩
  simpa using runLoop_equity_len strat bars 0
    ({ cash := initialCapital, position := none, trades := [], equity_curve := [] }, s0)

/-- A flat two-bar feed for the C2 witness. -/
def twoBars : List Candle :=
  [{ timestamp := 0, o := 10, high := 11, low := 9, close := 10, volume := 1 },
   { timestamp := 1, o := 10, high := 12, low := 10, close := 11, volume := 1 }]

/-- Witness for claim C2 on a concrete two-bar feed with the strategy that
never trades. -/
theorem c2_equity_curve_length_witness :
    twoBars ≠ [] ∧
    ∃ r, runBacktest (fun (s : Unit) (_ : Candle) => (s, (none : Option OrderIntent)))
        () 10000 twoBars = Except.ok r ∧ r.equity_curve.length = 2 := by
  refine ⟨by simp [twoBars], ?_⟩
  simpa [twoBars] using
    c2_equity_curve_length (fun (s : Unit) (_ : Candle) => (s, (none : Option OrderIntent)))
      () 10000 twoBars (by simp [twoBars])

/-- Claim C1: when a LONG position has both its stop and its target
breached within the same bar, the exit check honors the stop — the exit
carries the stop price and the STOP_LOSS reason, and the resulting trade
records that stop price and reason (second conjunct).  The third conjunct
shows the same priority in the example strategy of the backend README:
with both levels breached, on_candle emits the STOP_LOSS exit. -/
theorem c1_stop_honored_first :
    (∀ (p : Position) (c : Candle) (sl tp : ℚ),
       p.side = Side.LONG →
       p.stop_loss_price = some sl →
       p.take_profit_price = some tp →
       c.low ≤ sl → tp ≤ c.high →
       checkExit p c = some (sl, "STOP_LOSS")) ∧
    (∀ (p : Position) (sl : ℚ) (t : ℤ) (k : ℕ),
       (closeTrade p sl "STOP_LOSS" t k).exit_price = sl ∧
       (closeTrade p sl "STOP_LOSS" t k).exit_reason = "STOP_LOSS") ∧
    (∀ (s : ReadmeMACross.State) (c : Candle) (e : ℚ),
       s.position = some "LONG" →
       s.entry_price = some e →
       (capAppend s.price_history c.close 100).length ≥ s.slow_period →
       c.low ≤ e * (1 - s.stop_loss_pct) →
       e * (1 + s.take_profit_pct) ≤ c.high →
       (ReadmeMACross.onCandle s c).2 =
         some { action := Action.SELL, quantity := some s.quantity,
                order_type := some "MARKET", exit_reason := some "STOP_LOSS" }) := by
  refine ⟨?_, ?_, ?_⟩
  · intro p c sl tp hside hsl htp hlow hhigh
    unfold checkExit
    rw [hside, hsl]
    simp [hlow]
  · intro p sl t k
    exact ⟨rfl, rfl⟩
  · intro s c e hpos hentry hlen hlow hhigh
    obtain ⟨fp, sp, q, slp, tpp, ph, fm, sm, pos, ep, ini⟩ := s
    simp only at hpos hentry hlen hlow hhigh
    subst hpos hentry
    cases ini <;>
      simp [ReadmeMACross.onCandle, ReadmeMACross.initializeFn, hlen, hlow, hhigh] <;>
      split <;>
      simp_all

/-- The position, bar, trade time and bar index of the tie-break test
scenario of the spec: LONG entered at 100 with stop 95 and target 110, hit
by a bar with low 90 and high 115. -/
def tiePosition : Position :=
  { side := Side.LONG, entry_price := 100, quantity := 1, entry_time := 0,
    stop_loss_price := some 95, take_profit_price := some 110,
    trailing_stop_pct := none, favorable_extreme := 100, entry_index := 0 }

/-- The bar of the tie-break scenario. -/
def tieBar : Candle :=
  { timestamp := 1, o := 100, high := 115, low := 90, close := 100, volume := 1 }

/-- A README-strategy state holding a LONG position entered at 100 with a
5 percent stop and a 10 percent target, enough history for the exit
checks to run. -/
def tieReadmeState : ReadmeMACross.State :=
  { fast_period := 10, slow_period := 20, quantity := 1,
    stop_loss_pct := 5 / 100, take_profit_pct := 10 / 100,
    price_history := List.replicate 19 100, fast_ma := [], slow_ma := [],
    position := some "LONG", entry_price := some 100, initialized := true }

/-- Witness for claim C1 at the spec's tie-break scenario: with stop 95
and target 110 both breached by the bar with low 90 and high 115, the exit
check returns the stop, the trade records exit price 95 with reason
STOP_LOSS, and the README strategy emits the STOP_LOSS exit. -/
theorem c1_stop_honored_first_witness :
    tiePosition.side = Side.LONG ∧
    tiePosition.stop_loss_price = some 95 ∧
    tiePosition.take_profit_price = some 110 ∧
    tieBar.low ≤ 95 ∧ (110 : ℚ) ≤ tieBar.high ∧
    checkExit tiePosition tieBar = some (95, "STOP_LOSS") ∧
    (closeTrade tiePosition 95 "STOP_LOSS" 1 3).exit_price = 95 ∧
    (closeTrade tiePosition 95 "STOP_LOSS" 1 3).exit_reason = "STOP_LOSS" ∧
    (ReadmeMACross.onCandle tieReadmeState tieBar).2 =
      some { action := Action.SELL, quantity := some 1,
             order_type := some "MARKET", exit_reason := some "STOP_LOSS" } := by
  refine ⟨rfl, rfl, rfl, by norm_num [tieBar], by norm_num [tieBar], ?_, ?_, ?_, ?_⟩
  · exact c1_stop_honored_first.1 tiePosition tieBar 95 110 rfl rfl rfl
      (by norm_num [tieBar, tiePosition]) (by norm_num [tieBar, tiePosition])
  · exact (c1_stop_honored_first.2.1 tiePosition 95 1 3).1
  · exact (c1_stop_honored_first.2.1 tiePosition 95 1 3).2
  · exact c1_stop_honored_first.2.2 tieReadmeState tieBar 100 rfl rfl
      (by simp [tieReadmeState, tieBar, capAppend])
      (by norm_num [tieReadmeState, tieBar])
      (by norm_num [tieReadmeState, tieBar])

/-- Claim C4, amended: the closed-trade record carries exactly the fields
entry_time, exit_time, side, entry_price, exit_price, quantity, pnl,
return_pct, exit_reason and candles_held, and the trade list is
append-only — each loop iteration, and hence a whole run, only appends new
Trade records and never mutates existing ones. -/
theorem c4_trade_fields_append_only :
    tradeFields =
      ["entry_time", "exit_time", "side", "entry_price", "exit_price",
       "quantity", "pnl", "return_pct", "exit_reason", "candles_held"] ∧
    (∀ (σ : Type) (strat : σ → Candle → σ × Option OrderIntent)
       (k : ℕ) (st : LedgerState × σ) (c : Candle),
       ∃ tl, ((stepBar strat k st c).1).trades = st.1.trades ++ tl) ∧
    (∀ (σ : Type) (strat : σ → Candle → σ × Option OrderIntent)
       (bars : List Candle) (k : ℕ) (st : LedgerState × σ),
       ∃ tl, ((runLoop strat k st bars).1).trades = st.1.trades ++ tl) := by
  exact ⟨rfl,
    fun σ strat k st c => stepBar_trades_append strat k st c,
    fun σ strat bars k st => runLoop_trades_append strat bars k st⟩

end BT

namespace BT

/-- Claim C6: for every parameter choice, every order mapping a generated
strategy returns carries a quantity key exactly when its action is BUY or
SELL (CLOSE_ALL intents carry none), and — last conjunct, engine modelled
from the spec — CLOSE and CLOSE_ALL close the full open position
independent of any quantity field in the intent. -/
theorem c6_quantity_present_iff_entry :
    (∀ (posSize : ℚ → ℚ → ℚ) (s : MACrossoverStrategy.State) (c : Candle),
       quantityOk ((MACrossoverStrategy.onCandle posSize s c).2) = true) ∧
    (∀ (calcEMA : List ℚ → ℕ → List (Option ℚ)) (posSize : ℚ → ℚ → ℚ) (s : EMACrossoverStrategy.State) (c : Candle),
       quantityOk ((EMACrossoverStrategy.onCandle calcEMA posSize s c).2) = true) ∧
    (∀ (calcSMA : List ℚ → ℕ → List (Option ℚ)) (posSize : ℚ → ℚ → ℚ) (s : TripleMAStrategy.State) (c : Candle),
       quantityOk ((TripleMAStrategy.onCandle calcSMA posSize s c).2) = true) ∧
    (∀ (calcSMA calcEMA : List ℚ → ℕ → List (Option ℚ)) (posSize : ℚ → ℚ → ℚ) (s : PriceVsMAStrategy.State) (c : Candle),
       quantityOk ((PriceVsMAStrategy.onCandle calcSMA calcEMA posSize s c).2) = true) ∧
    (∀ (calcRSI : List ℚ → ℕ → List (Option ℚ)) (posSize : ℚ → ℚ → ℚ) (s : RSIMeanReversionStrategy.State) (c : Candle),
       quantityOk ((RSIMeanReversionStrategy.onCandle calcRSI posSize s c).2) = true) ∧
    (∀ (calcStoch : List ℚ → List ℚ → List ℚ → ℕ → ℕ → List (Option ℚ) × List (Option ℚ)) (posSize : ℚ → ℚ → ℚ) (s : StochasticStrategy.State) (c : Candle),
       quantityOk ((StochasticStrategy.onCandle calcStoch posSize s c).2) = true) ∧
    (∀ (calcMACD : List ℚ → ℕ → ℕ → ℕ → List (Option ℚ) × List (Option ℚ)) (posSize : ℚ → ℚ → ℚ) (s : MACDMomentumStrategy.State) (c : Candle),
       quantityOk ((MACDMomentumStrategy.onCandle calcMACD posSize s c).2) = true) ∧
    (∀ (calcBB : List ℚ → ℕ → ℚ → List (Option ℚ) × List (Option ℚ)) (posSize : ℚ → ℚ → ℚ) (s : BollingerBandsStrategy.State) (c : Candle),
       quantityOk ((BollingerBandsStrategy.onCandle calcBB posSize s c).2) = true) ∧
    (∀ (calcATR : List ℚ → List ℚ → List ℚ → ℕ → List (Option ℚ)) (posSize : ℚ → ℚ → ℚ) (s : ATRTrailingStrategy.State) (c : Candle),
       quantityOk ((ATRTrailingStrategy.onCandle calcATR posSize s c).2) = true) ∧
    (∀ (calcST : List ℚ → List ℚ → List ℚ → ℕ → ℚ → List (Option ℚ)) (posSize : ℚ → ℚ → ℚ) (s : SupertrendStrategy.State) (c : Candle),
       quantityOk ((SupertrendStrategy.onCandle calcST posSize s c).2) = true) ∧
    (∀ (calcRSI : List ℚ → ℕ → List (Option ℚ)) (calcMACD : List ℚ → ℕ → ℕ → ℕ → List (Option ℚ) × List (Option ℚ)) (posSize : ℚ → ℚ → ℚ) (s : RSIMACDComboStrategy.State) (c : Candle),
       quantityOk ((RSIMACDComboStrategy.onCandle calcRSI calcMACD posSize s c).2) = true) ∧
    (∀ (led : LedgerState) (i : OrderIntent) (c : Candle) (k : ℕ) (q : Option ℚ),
       i.action = Action.CLOSE_ALL ∨ i.action = Action.CLOSE →
       applyIntent led { i with quantity := q } c k = applyIntent led i c k) := by
  refine ⟨MACrossoverStrategy.maCross_qty_ok, EMACrossoverStrategy.emaCross_qty_ok, TripleMAStrategy.tripleMA_qty_ok, PriceVsMAStrategy.priceMA_qty_ok, RSIMeanReversionStrategy.rsiMR_qty_ok, StochasticStrategy.stoch_qty_ok, MACDMomentumStrategy.macdMom_qty_ok, BollingerBandsStrategy.boll_qty_ok, ATRTrailingStrategy.atrTrail_qty_ok, SupertrendStrategy.superT_qty_ok, RSIMACDComboStrategy.rsiMacd_qty_ok, ?_⟩
  intro led i c k q h
  rcases h with h | h <;> cases hP : led.position <;>
    simp [applyIntent, h, hP]

/-- A CLOSE_ALL intent with an exit reason, for the C6 witness. -/
def closeAllIntent : OrderIntent :=
  { action := Action.CLOSE_ALL, exit_reason := some "RSI_NEUTRAL" }

/-- A ledger holding the tie-break position, for the C6 witness. -/
def ledgerWithPosition : LedgerState :=
  { cash := 10000, position := some tiePosition, trades := [], equity_curve := [] }

/-- Witness for the hypothesis-bearing conjunct of claim C6: on a concrete
ledger with an open position, CLOSE_ALL behaves identically with and
without a quantity field. -/
theorem c6_quantity_present_iff_entry_witness :
    (closeAllIntent.action = Action.CLOSE_ALL ∨ closeAllIntent.action = Action.CLOSE) ∧
    applyIntent ledgerWithPosition { closeAllIntent with quantity := some 42 } tieBar 0 =
      applyIntent ledgerWithPosition closeAllIntent tieBar 0 := by
  refine ⟨Or.inl rfl, ?_⟩
  exact c6_quantity_present_iff_entry.2.2.2.2.2.2.2.2.2.2.2
    ledgerWithPosition closeAllIntent tieBar 0 (some 42) (Or.inl rfl)

/-- Claim C7: for every parameter choice, every generated intent that
opens SHORT exposure (a SELL) explicitly sets position_side SHORT and
every BUY omits position_side; the last conjunct (engine modelled from
the spec) shows the default: a BUY applied while flat opens a LONG
position. -/
theorem c7_short_sets_position_side :
    (∀ (posSize : ℚ → ℚ → ℚ) (s : MACrossoverStrategy.State) (c : Candle),
       sideOk ((MACrossoverStrategy.onCandle posSize s c).2) = true) ∧
    (∀ (calcEMA : List ℚ → ℕ → List (Option ℚ)) (posSize : ℚ → ℚ → ℚ) (s : EMACrossoverStrategy.State) (c : Candle),
       sideOk ((EMACrossoverStrategy.onCandle calcEMA posSize s c).2) = true) ∧
    (∀ (calcSMA : List ℚ → ℕ → List (Option ℚ)) (posSize : ℚ → ℚ → ℚ) (s : TripleMAStrategy.State) (c : Candle),
       sideOk ((TripleMAStrategy.onCandle calcSMA posSize s c).2) = true) ∧
    (∀ (calcSMA calcEMA : List ℚ → ℕ → List (Option ℚ)) (posSize : ℚ → ℚ → ℚ) (s : PriceVsMAStrategy.State) (c : Candle),
       sideOk ((PriceVsMAStrategy.onCandle calcSMA calcEMA posSize s c).2) = true) ∧
    (∀ (calcRSI : List ℚ → ℕ → List (Option ℚ)) (posSize : ℚ → ℚ → ℚ) (s : RSIMeanReversionStrategy.State) (c : Candle),
       sideOk ((RSIMeanReversionStrategy.onCandle calcRSI posSize s c).2) = true) ∧
    (∀ (calcStoch : List ℚ → List ℚ → List ℚ → ℕ → ℕ → List (Option ℚ) × List (Option ℚ)) (posSize : ℚ → ℚ → ℚ) (s : StochasticStrategy.State) (c : Candle),
       sideOk ((StochasticStrategy.onCandle calcStoch posSize s c).2) = true) ∧
    (∀ (calcMACD : List ℚ → ℕ → ℕ → ℕ → List (Option ℚ) × List (Option ℚ)) (posSize : ℚ → ℚ → ℚ) (s : MACDMomentumStrategy.State) (c : Candle),
       sideOk ((MACDMomentumStrategy.onCandle calcMACD posSize s c).2) = true) ∧
    (∀ (calcBB : List ℚ → ℕ → ℚ → List (Option ℚ) × List (Option ℚ)) (posSize : ℚ → ℚ → ℚ) (s : BollingerBandsStrategy.State) (c : Candle),
       sideOk ((BollingerBandsStrategy.onCandle calcBB posSize s c).2) = true) ∧
    (∀ (calcATR : List ℚ → List ℚ → List ℚ → ℕ → List (Option ℚ)) (posSize : ℚ → ℚ → ℚ) (s : ATRTrailingStrategy.State) (c : Candle),
       sideOk ((ATRTrailingStrategy.onCandle calcATR posSize s c).2) = true) ∧
    (∀ (calcST : List ℚ → List ℚ → List ℚ → ℕ → ℚ → List (Option ℚ)) (posSize : ℚ → ℚ → ℚ) (s : SupertrendStrategy.State) (c : Candle),
       sideOk ((SupertrendStrategy.onCandle calcST posSize s c).2) = true) ∧
    (∀ (calcRSI : List ℚ → ℕ → List (Option ℚ)) (calcMACD : List ℚ → ℕ → ℕ → ℕ → List (Option ℚ) × List (Option ℚ)) (posSize : ℚ → ℚ → ℚ) (s : RSIMACDComboStrategy.State) (c : Candle),
       sideOk ((RSIMACDComboStrategy.onCandle calcRSI calcMACD posSize s c).2) = true) ∧
    (∀ (led : LedgerState) (i : OrderIntent) (c : Candle) (k : ℕ) (p : Position),
       i.action = Action.BUY →
       led.position = none →
       (applyIntent led i c k).position = some p →
       p.side = Side.LONG) := by
  refine ⟨MACrossoverStrategy.maCross_side_ok, EMACrossoverStrategy.emaCross_side_ok, TripleMAStrategy.tripleMA_side_ok, PriceVsMAStrategy.priceMA_side_ok, RSIMeanReversionStrategy.rsiMR_side_ok, StochasticStrategy.stoch_side_ok, MACDMomentumStrategy.macdMom_side_ok, BollingerBandsStrategy.boll_side_ok, ATRTrailingStrategy.atrTrail_side_ok, SupertrendStrategy.superT_side_ok, RSIMACDComboStrategy.rsiMacd_side_ok, ?_⟩
  intro led i c k p hA hflat hpos
  unfold applyIntent at hpos
  rw [hA, hflat] at hpos
  cases hq : i.quantity with
  | none => simp [hq, hflat] at hpos
  | some q =>
      by_cases hq0 : q ≤ 0
      · simp [hq, hq0, hflat] at hpos
      · cases hf : fillPrice i c with
        | none => simp [hq, hq0, hf, hflat] at hpos
        | some fill =>
            simp [hq, hq0, hf] at hpos
            subst hpos
            rfl

/-- A BUY intent with a positive quantity, for the C7 witness. -/
def buyIntent : OrderIntent :=
  { action := Action.BUY, quantity := some 1, order_type := some "MARKET" }

/-- A flat ledger, for the C7 witness. -/
def flatLedger : LedgerState :=
  { cash := 10000, position := none, trades := [], equity_curve := [] }

/-- Witness for the hypothesis-bearing conjunct of claim C7: the concrete
BUY applied to the flat ledger opens a LONG position. -/
theorem c7_short_sets_position_side_witness :
    buyIntent.action = Action.BUY ∧
    flatLedger.position = none ∧
    (applyIntent flatLedger buyIntent tieBar 0).position =
      some (openPosition Side.LONG tieBar.close 1 buyIntent tieBar 0) ∧
    (openPosition Side.LONG tieBar.close 1 buyIntent tieBar 0).side = Side.LONG := by
  have happ : (applyIntent flatLedger buyIntent tieBar 0).position =
      some (openPosition Side.LONG tieBar.close 1 buyIntent tieBar 0) := rfl
  refine ⟨rfl, rfl, happ, ?_⟩
  exact c7_short_sets_position_side.2.2.2.2.2.2.2.2.2.2.2
    flatLedger buyIntent tieBar 0 (openPosition Side.LONG tieBar.close 1 buyIntent tieBar 0)
    rfl rfl happ

/-- Claim C8: every generated strategy implements initialize and a
per-bar on_candle callback; for each of the eleven generated classes,
initialize is idempotent, on_candle behaves as if initialize had been
called first (the lazy call on the first bar), and after any on_candle
call the strategy is initialized. -/
theorem c8_initialize_contract :
    ((∀ (s : MACrossoverStrategy.State),
        MACrossoverStrategy.initializeFn (MACrossoverStrategy.initializeFn s) = MACrossoverStrategy.initializeFn s) ∧
     (∀ (posSize : ℚ → ℚ → ℚ) (s : MACrossoverStrategy.State) (c : Candle),
        MACrossoverStrategy.onCandle posSize s c = MACrossoverStrategy.onCandle posSize (MACrossoverStrategy.initializeFn s) c) ∧
     (∀ (posSize : ℚ → ℚ → ℚ) (s : MACrossoverStrategy.State) (c : Candle),
        ((MACrossoverStrategy.onCandle posSize s c).1).initialized = true)) ∧
    ((∀ (s : EMACrossoverStrategy.State),
        EMACrossoverStrategy.initializeFn (EMACrossoverStrategy.initializeFn s) = EMACrossoverStrategy.initializeFn s) ∧
     (∀ (calcEMA : List ℚ → ℕ → List (Option ℚ)) (posSize : ℚ → ℚ → ℚ) (s : EMACrossoverStrategy.State) (c : Candle),
        EMACrossoverStrategy.onCandle calcEMA posSize s c = EMACrossoverStrategy.onCandle calcEMA posSize (EMACrossoverStrategy.initializeFn s) c) ∧
     (∀ (calcEMA : List ℚ → ℕ → List (Option ℚ)) (posSize : ℚ → ℚ → ℚ) (s : EMACrossoverStrategy.State) (c : Candle),
        ((EMACrossoverStrategy.onCandle calcEMA posSize s c).1).initialized = true)) ∧
    ((∀ (s : TripleMAStrategy.State),
        TripleMAStrategy.initializeFn (TripleMAStrategy.initializeFn s) = TripleMAStrategy.initializeFn s) ∧
     (∀ (calcSMA : List ℚ → ℕ → List (Option ℚ)) (posSize : ℚ → ℚ → ℚ) (s : TripleMAStrategy.State) (c : Candle),
        TripleMAStrategy.onCandle calcSMA posSize s c = TripleMAStrategy.onCandle calcSMA posSize (TripleMAStrategy.initializeFn s) c) ∧
     (∀ (calcSMA : List ℚ → ℕ → List (Option ℚ)) (posSize : ℚ → ℚ → ℚ) (s : TripleMAStrategy.State) (c : Candle),
        ((TripleMAStrategy.onCandle calcSMA posSize s c).1).initialized = true)) ∧
    ((∀ (s : PriceVsMAStrategy.State),
        PriceVsMAStrategy.initializeFn (PriceVsMAStrategy.initializeFn s) = PriceVsMAStrategy.initializeFn s) ∧
     (∀ (calcSMA calcEMA : List ℚ → ℕ → List (Option ℚ)) (posSize : ℚ → ℚ → ℚ) (s : PriceVsMAStrategy.State) (c : Candle),
        PriceVsMAStrategy.onCandle calcSMA calcEMA posSize s c = PriceVsMAStrategy.onCandle calcSMA calcEMA posSize (PriceVsMAStrategy.initializeFn s) c) ∧
     (∀ (calcSMA calcEMA : List ℚ → ℕ → List (Option ℚ)) (posSize : ℚ → ℚ → ℚ) (s : PriceVsMAStrategy.State) (c : Candle),
        ((PriceVsMAStrategy.onCandle calcSMA calcEMA posSize s c).1).initialized = true)) ∧
    ((∀ (s : RSIMeanReversionStrategy.State),
        RSIMeanReversionStrategy.initializeFn (RSIMeanReversionStrategy.initializeFn s) = RSIMeanReversionStrategy.initializeFn s) ∧
     (∀ (calcRSI : List ℚ → ℕ → List (Option ℚ)) (posSize : ℚ → ℚ → ℚ) (s : RSIMeanReversionStrategy.State) (c : Candle),
        RSIMeanReversionStrategy.onCandle calcRSI posSize s c = RSIMeanReversionStrategy.onCandle calcRSI posSize (RSIMeanReversionStrategy.initializeFn s) c) ∧
     (∀ (calcRSI : List ℚ → ℕ → List (Option ℚ)) (posSize : ℚ → ℚ → ℚ) (s : RSIMeanReversionStrategy.State) (c : Candle),
        ((RSIMeanReversionStrategy.onCandle calcRSI posSize s c).1).initialized = true)) ∧
    ((∀ (s : StochasticStrategy.State),
        StochasticStrategy.initializeFn (StochasticStrategy.initializeFn s) = StochasticStrategy.initializeFn s) ∧
     (∀ (calcStoch : List ℚ → List ℚ → List ℚ → ℕ → ℕ → List (Option ℚ) × List (Option ℚ)) (posSize : ℚ → ℚ → ℚ) (s : StochasticStrategy.State) (c : Candle),
        StochasticStrategy.onCandle calcStoch posSize s c = StochasticStrategy.onCandle calcStoch posSize (StochasticStrategy.initializeFn s) c) ∧
     (∀ (calcStoch : List ℚ → List ℚ → List ℚ → ℕ → ℕ → List (Option ℚ) × List (Option ℚ)) (posSize : ℚ → ℚ → ℚ) (s : StochasticStrategy.State) (c : Candle),
        ((StochasticStrategy.onCandle calcStoch posSize s c).1).initialized = true)) ∧
    ((∀ (s : MACDMomentumStrategy.State),
        MACDMomentumStrategy.initializeFn (MACDMomentumStrategy.initializeFn s) = MACDMomentumStrategy.initializeFn s) ∧
     (∀ (calcMACD : List ℚ → ℕ → ℕ → ℕ → List (Option ℚ) × List (Option ℚ)) (posSize : ℚ → ℚ → ℚ) (s : MACDMomentumStrategy.State) (c : Candle),
        MACDMomentumStrategy.onCandle calcMACD posSize s c = MACDMomentumStrategy.onCandle calcMACD posSize (MACDMomentumStrategy.initializeFn s) c) ∧
     (∀ (calcMACD : List ℚ → ℕ → ℕ → ℕ → List (Option ℚ) × List (Option ℚ)) (posSize : ℚ → ℚ → ℚ) (s : MACDMomentumStrategy.State) (c : Candle),
        ((MACDMomentumStrategy.onCandle calcMACD posSize s c).1).initialized = true)) ∧
    ((∀ (s : BollingerBandsStrategy.State),
        BollingerBandsStrategy.initializeFn (BollingerBandsStrategy.initializeFn s) = BollingerBandsStrategy.initializeFn s) ∧
     (∀ (calcBB : List ℚ → ℕ → ℚ → List (Option ℚ) × List (Option ℚ)) (posSize : ℚ → ℚ → ℚ) (s : BollingerBandsStrategy.State) (c : Candle),
        BollingerBandsStrategy.onCandle calcBB posSize s c = BollingerBandsStrategy.onCandle calcBB posSize (BollingerBandsStrategy.initializeFn s) c) ∧
     (∀ (calcBB : List ℚ → ℕ → ℚ → List (Option ℚ) × List (Option ℚ)) (posSize : ℚ → ℚ → ℚ) (s : BollingerBandsStrategy.State) (c : Candle),
        ((BollingerBandsStrategy.onCandle calcBB posSize s c).1).initialized = true)) ∧
    ((∀ (s : ATRTrailingStrategy.State),
        ATRTrailingStrategy.initializeFn (ATRTrailingStrategy.initializeFn s) = ATRTrailingStrategy.initializeFn s) ∧
     (∀ (calcATR : List ℚ → List ℚ → List ℚ → ℕ → List (Option ℚ)) (posSize : ℚ → ℚ → ℚ) (s : ATRTrailingStrategy.State) (c : Candle),
        ATRTrailingStrategy.onCandle calcATR posSize s c = ATRTrailingStrategy.onCandle calcATR posSize (ATRTrailingStrategy.initializeFn s) c) ∧
     (∀ (calcATR : List ℚ → List ℚ → List ℚ → ℕ → List (Option ℚ)) (posSize : ℚ → ℚ → ℚ) (s : ATRTrailingStrategy.State) (c : Candle),
        ((ATRTrailingStrategy.onCandle calcATR posSize s c).1).initialized = true)) ∧
    ((∀ (s : SupertrendStrategy.State),
        SupertrendStrategy.initializeFn (SupertrendStrategy.initializeFn s) = SupertrendStrategy.initializeFn s) ∧
     (∀ (calcST : List ℚ → List ℚ → List ℚ → ℕ → ℚ → List (Option ℚ)) (posSize : ℚ → ℚ → ℚ) (s : SupertrendStrategy.State) (c : Candle),
        SupertrendStrategy.onCandle calcST posSize s c = SupertrendStrategy.onCandle calcST posSize (SupertrendStrategy.initializeFn s) c) ∧
     (∀ (calcST : List ℚ → List ℚ → List ℚ → ℕ → ℚ → List (Option ℚ)) (posSize : ℚ → ℚ → ℚ) (s : SupertrendStrategy.State) (c : Candle),
        ((SupertrendStrategy.onCandle calcST posSize s c).1).initialized = true)) ∧
    ((∀ (s : RSIMACDComboStrategy.State),
        RSIMACDComboStrategy.initializeFn (RSIMACDComboStrategy.initializeFn s) = RSIMACDComboStrategy.initializeFn s) ∧
     (∀ (calcRSI : List ℚ → ℕ → List (Option ℚ)) (calcMACD : List ℚ → ℕ → ℕ → ℕ → List (Option ℚ) × List (Option ℚ)) (posSize : ℚ → ℚ → ℚ) (s : RSIMACDComboStrategy.State) (c : Candle),
        RSIMACDComboStrategy.onCandle calcRSI calcMACD posSize s c = RSIMACDComboStrategy.onCandle calcRSI calcMACD posSize (RSIMACDComboStrategy.initializeFn s) c) ∧
     (∀ (calcRSI : List ℚ → ℕ → List (Option ℚ)) (calcMACD : List ℚ → ℕ → ℕ → ℕ → List (Option ℚ) × List (Option ℚ)) (posSize : ℚ → ℚ → ℚ) (s : RSIMACDComboStrategy.State) (c : Candle),
        ((RSIMACDComboStrategy.onCandle calcRSI calcMACD posSize s c).1).initialized = true)) := by
  exact ⟨⟨MACrossoverStrategy.maCross_init_idem, MACrossoverStrategy.maCross_lazy_init, MACrossoverStrategy.maCross_flag_true⟩, ⟨EMACrossoverStrategy.emaCross_init_idem, EMACrossoverStrategy.emaCross_lazy_init, EMACrossoverStrategy.emaCross_flag_true⟩, ⟨TripleMAStrategy.tripleMA_init_idem, TripleMAStrategy.tripleMA_lazy_init, TripleMAStrategy.tripleMA_flag_true⟩, ⟨PriceVsMAStrategy.priceMA_init_idem, PriceVsMAStrategy.priceMA_lazy_init, PriceVsMAStrategy.priceMA_flag_true⟩, ⟨RSIMeanReversionStrategy.rsiMR_init_idem, RSIMeanReversionStrategy.rsiMR_lazy_init, RSIMeanReversionStrategy.rsiMR_flag_true⟩, ⟨StochasticStrategy.stoch_init_idem, StochasticStrategy.stoch_lazy_init, StochasticStrategy.stoch_flag_true⟩, ⟨MACDMomentumStrategy.macdMom_init_idem, MACDMomentumStrategy.macdMom_lazy_init, MACDMomentumStrategy.macdMom_flag_true⟩, ⟨BollingerBandsStrategy.boll_init_idem, BollingerBandsStrategy.boll_lazy_init, BollingerBandsStrategy.boll_flag_true⟩, ⟨ATRTrailingStrategy.atrTrail_init_idem, ATRTrailingStrategy.atrTrail_lazy_init, ATRTrailingStrategy.atrTrail_flag_true⟩, ⟨SupertrendStrategy.superT_init_idem, SupertrendStrategy.superT_lazy_init, SupertrendStrategy.superT_flag_true⟩, ⟨RSIMACDComboStrategy.rsiMacd_init_idem, RSIMACDComboStrategy.rsiMacd_lazy_init, RSIMACDComboStrategy.rsiMacd_flag_true⟩⟩

end BT
